import Mathlib

set_option maxRecDepth 100000

/-!
Verification of the core of `smart_ai_nutrition_app` (`src/nutrition_app.py`)
against its natural-language specification.

Python numbers (ints and floats) are idealised as exact rationals `ℚ`.
Because Mathlib's field operations on `ℚ` do not reduce inside the kernel,
the embedding uses executable arithmetic (`qAdd`, `qSub`, `qMul`, `qDiv`,
built on `Rat.divInt`) together with bridge lemmas equating them with the
ordinary Mathlib operations, so that every definition can be evaluated by
`decide` on concrete inputs while proofs reason with the usual algebra.
-/
/-! ## Executable rational arithmetic -/
def qAdd (a b : ℚ) : ℚ := Rat.divInt (a.num * b.den + b.num * a.den) (a.den * b.den)

def qSub (a b : ℚ) : ℚ := Rat.divInt (a.num * b.den - b.num * a.den) (a.den * b.den)

def qMul (a b : ℚ) : ℚ := Rat.divInt (a.num * b.num) (a.den * b.den)

def qDiv (a b : ℚ) : ℚ := Rat.divInt (a.num * b.den) (a.den * b.num)

/-- Executable floor on `ℚ` (kernel-reducible, unlike Mathlib's `⌊·⌋`). -/
def ratFloor (q : ℚ) : ℤ := Int.fdiv q.num q.den

/-- Python's built-in `round` on a number: round half to even (banker's
rounding), as `round` behaves on floats in CPython.  Returns an integer. -/
def pyRound (q : ℚ) : ℤ :=
  let f : ℤ := ratFloor q
  let r : ℚ := qSub q (f : ℚ)
  if r < mkRat 1 2 then f
  else if mkRat 1 2 < r then f + 1
  else if f % 2 = 0 then f else f + 1

/-- Python's `round(x, 1)`: round to one decimal digit, half to even. -/
def pyRound1 (q : ℚ) : ℚ := qDiv ((pyRound (qMul q 10) : ℤ) : ℚ) 10

/-! ## ASCII lowercasing (Python's `str.lower` restricted to ASCII) -/
def lowerChar (c : Char) : Char :=
  if 'A' ≤ c ∧ c ≤ 'Z' then Char.ofNat (c.toNat + 32) else c

def asciiLower (s : String) : String := ⟨s.data.map lowerChar⟩

/-! ## NutritionCalculator (`src/nutrition_app.py` lines 729–779) -/
/-- `calculate_bmi(weight, height)` from lines 729–739.  The Boolean in the
result records whether the invalid-input warning was surfaced
(`st.warning`); the first component is the returned value. -/
def calculate_bmi (weight height : ℚ) : ℚ × Bool :=
  if height ≤ 0 ∨ weight ≤ 0 then (0, true)
  else (pyRound1 (qDiv weight (qMul (qDiv height 100) (qDiv height 100))), false)

/-- The activity-multiplier table lookup of lines 751–757 together with the
`.get(activity_level.lower(), 1.55)` default of line 768.
`mkRat` values: 6/5 = 1.2, 11/8 = 1.375, 31/20 = 1.55, 69/40 = 1.725,
19/10 = 1.9. -/
def activityMultiplier (activity_level : String) : ℚ :=
  (List.lookup (asciiLower activity_level)
    [("sedentary", mkRat 6 5), ("light", mkRat 11 8), ("moderate", mkRat 31 20),
     ("active", mkRat 69 40), ("very active", mkRat 19 10)]).getD (mkRat 31 20)

/-- The goal-adjustment table of lines 760–765 with the `.get(goal, 0)`
default of line 770. -/
def goalAdjustment (diet_goal : String) : ℚ :=
  (List.lookup (asciiLower diet_goal)
    [("weight loss", -500), ("weight gain", 500), ("muscle gain", 300),
     ("maintain weight", 0)]).getD 0

/-- `calculate_daily_calories` from lines 741–779.  BMR by Mifflin-St Jeor
(lines 744–748, `6.25 = mkRat 25 4`), TDEE and goal adjustment
(lines 767–770), then `max(1200, round(tdee + adjustment))` (lines 773–774).
The `except` fallback returning 2000 is unreachable in the rational model. -/
def calculate_daily_calories (age : ℚ) (gender : String) (weight height : ℚ)
    (activity_level diet_goal : String) : ℤ :=
  let bmr : ℚ :=
    if asciiLower gender = "male" then
      qAdd (qSub (qAdd (qMul 10 weight) (qMul (mkRat 25 4) height)) (qMul 5 age)) 5
    else
      qSub (qSub (qAdd (qMul 10 weight) (qMul (mkRat 25 4) height)) (qMul 5 age)) 161
  let tdee : ℚ := qMul bmr (activityMultiplier activity_level)
  let calculated : ℤ := pyRound (qAdd tdee (goalAdjustment diet_goal))
  if calculated ≤ 1200 then 1200 else calculated

/-- `get_bmi_category` from lines 1215–1223 (`18.5 = mkRat 37 2`,
`24.9 = mkRat 249 10`, `29.9 = mkRat 299 10`). -/
def get_bmi_category (bmi : ℚ) : String :=
  if bmi < mkRat 37 2 then "Underweight"
  else if mkRat 37 2 ≤ bmi ∧ bmi < mkRat 249 10 then "Normal weight"
  else if 25 ≤ bmi ∧ bmi < mkRat 299 10 then "Overweight"
  else "Obese"

/-! ## JSON values

Python objects produced by `json.loads`: `int` and `float` are kept apart
(`Json.int` vs `Json.num`) because the validator's job is precisely to
coerce numeric fields to `float`. -/
inductive Json where
  | null
  | bool (b : Bool)
  | int (n : ℤ)
  | num (q : ℚ)
  | str (s : String)
  | arr (elems : List Json)
  | obj (fields : List (String × Json))

/-- Truthiness of a Python value (`if not x`). -/
def pyFalsy : Json → Bool
  | .null => true
  | .bool b => !b
  | .int n => n = 0
  | .num q => q = 0
  | .str s => s = ""
  | .arr xs => xs.isEmpty
  | .obj fs => fs.isEmpty

def hasKey (fs : List (String × Json)) (k : String) : Bool :=
  fs.any (fun p => p.1 == k)

def getKey (fs : List (String × Json)) (k : String) : Option Json :=
  List.lookup k fs

def getKeyD (fs : List (String × Json)) (k : String) (d : Json) : Json :=
  (getKey fs k).getD d

/-- Assignment `d[k] = v` on a Python dict: replaces the value in place
(keys of a dict are unique), appends if the key is new. -/
def setKey : List (String × Json) → String → Json → List (String × Json)
  | [], k, v => [(k, v)]
  | p :: t, k, v => if p.1 = k then (k, v) :: t else p :: setKey t k v

/-- Python whitespace (the characters `str.strip` removes). -/
def isPyWs (c : Char) : Bool :=
  c = ' ' ∨ c = '\t' ∨ c = '\n' ∨ c = '\r' ∨ c = '\x0b' ∨ c = '\x0c'

def trimLeftPy (cs : List Char) : List Char := cs.dropWhile isPyWs

def trimPy (cs : List Char) : List Char :=
  ((trimLeftPy cs).reverse.dropWhile isPyWs).reverse

/-- Is `needle` a contiguous substring of `hay` (Python `a in b` on
strings)? -/
def substrB (needle hay : List Char) : Bool :=
  needle.isPrefixOf hay ||
    match hay with
    | [] => false
    | _ :: t => substrB needle t

def digitsToNat (cs : List Char) : ℕ :=
  cs.foldl (fun a c => a * 10 + (c.toNat - 48)) 0

/-- Apply a decimal exponent to a rational. -/
def applyExp (m : ℚ) (e : ℤ) : ℚ :=
  if 0 ≤ e then qMul m ((10 ^ e.toNat : ℤ) : ℚ)
  else qDiv m ((10 ^ (-e).toNat : ℤ) : ℚ)

/-- Parse the exponent suffix of a float literal (empty, or `e`/`E`, an
optional sign and at least one digit), applying it to mantissa `m`. -/
def parseExpSuffix (m : ℚ) (cs : List Char) : Option ℚ :=
  match cs with
  | [] => some m
  | e :: r =>
    if e = 'e' ∨ e = 'E' then
      let (sgn, r1) : ℤ × List Char :=
        match r with
        | '+' :: r2 => (1, r2)
        | '-' :: r2 => (-1, r2)
        | r2 => (1, r2)
      let ds := r1.takeWhile Char.isDigit
      if ds.isEmpty ∨ ¬(r1.dropWhile Char.isDigit).isEmpty then none
      else some (applyExp m (sgn * (digitsToNat ds : ℤ)))
    else none

/-- Python `float(s)` on a string: optional surrounding whitespace, optional
sign, digits with optional fractional part (or a bare fractional part), and
an optional exponent.  (`inf`/`nan` and digit underscores, which CPython
also accepts, are not modelled; no code path in this repository feeds
them.) -/
def parsePyFloat (s : String) : Option ℚ :=
  let cs := trimPy s.data
  let (sgn, cs1) : ℤ × List Char :=
    match cs with
    | '+' :: r => (1, r)
    | '-' :: r => (-1, r)
    | r => (1, r)
  let ip := cs1.takeWhile Char.isDigit
  let rest := cs1.dropWhile Char.isDigit
  match rest with
  | '.' :: r2 =>
    let fp := r2.takeWhile Char.isDigit
    let rest2 := r2.dropWhile Char.isDigit
    if ip.isEmpty ∧ fp.isEmpty then none
    else
      parseExpSuffix
        (Rat.divInt (sgn * ((digitsToNat ip * 10 ^ fp.length + digitsToNat fp : ℕ) : ℤ))
          ((10 ^ fp.length : ℕ) : ℤ)) rest2
  | _ =>
    if ip.isEmpty then none
    else parseExpSuffix ((sgn * (digitsToNat ip : ℤ) : ℤ) : ℚ) rest

/-- Failure of Python `float(x)`: a `ValueError` (non-numeric string,
carrying the string) or a `TypeError` (non-number, non-string argument). -/
inductive FloatErr where
  | valueErr (s : String)
  | typeErr
  deriving DecidableEq

/-- Python `float(x)` on a JSON value. -/
def pyFloat : Json → Except FloatErr ℚ
  | .int n => .ok (n : ℚ)
  | .num q => .ok q
  | .bool b => .ok (if b then 1 else 0)
  | .str s =>
    match parsePyFloat s with
    | some q => .ok q
    | none => .error (.valueErr s)
  | _ => .error .typeErr

/-! ## ResponseValidator (`generate_medical_condition_diet`, lines 374–440)

The validation half of `generate_medical_condition_diet`: from the parsed
JSON value to the validated meal plan, or a typed failure.  The spec's
error taxonomy maps onto the Python exceptions as follows:
`schemaErr` = `ValueError` raised by an explicit check (SchemaError),
`coercionErr` = `ValueError` from `float()` on a bad string
(TypeCoercionError; both are caught at line 433 and yield `None`),
`otherErr` = any other exception (`TypeError`, `KeyError`, …) caught by
the generic handler at line 437, also yielding `None`. -/
inductive VErr where
  | parseErr
  | schemaErr (msg : String)
  | coercionErr (s : String)
  | otherErr
  deriving DecidableEq

def requiredMeals : List String := ["breakfast", "lunch", "dinner", "snacks"]

def itemFields : List String :=
  ["food", "quantity", "calories", "protein", "carbs", "fats", "fiber", "benefits"]

def summaryFields : List String :=
  ["total_calories", "total_protein", "total_carbs", "total_fats", "total_fiber",
   "medical_compliance"]

/-- The message of the `ValueError` raised at line 379 when a top-level
meal key is absent. -/
def missingMealsMsg : String := "Missing required meal types in AI response"

/-- The message of the `ValueError` raised at line 384 when a meal lacks
`items`, `total_calories` or `meal_benefits`. -/
def missingMealFieldsMsg (mealName : String) : String :=
  "Missing required fields in " ++ mealName ++
    " meal (items, total_calories, or meal_benefits)"

/-- `d[k] = float(d[k])` for a key already known to be present. -/
def coerceField (fs : List (String × Json)) (k : String) :
    Except VErr (List (String × Json)) :=
  match getKey fs k with
  | some v =>
    match pyFloat v with
    | .ok q => .ok (setKey fs k (.num q))
    | .error (.valueErr s) => .error (.coercionErr s)
    | .error .typeErr => .error .otherErr
  | none => .error .otherErr

/-- The message of the `ValueError` raised at line 392 (the Python
f-string additionally interpolates the repr of the offending item, which
is not modelled). -/
def missingItemFieldsMsg (mealName : String) : String :=
  "Missing fields in food item within " ++ mealName ++
    ". Missing one of: food, quantity, calories, protein, carbs, fats, fiber, benefits"

/-- Lines 401–402: default a falsy `benefits` field. -/
def benefitsFix (fs : List (String × Json)) : List (String × Json) :=
  if pyFalsy (getKeyD fs "benefits" .null) then
    setKey fs "benefits" (.str "General nutritional benefits.")
  else fs

/-- Lines 389–402: one iteration of the item loop.  Non-dict items go
through Python membership semantics: `field in item` is element equality
for a list, substring search for a string, and a `TypeError` otherwise;
when all field names are "present", the `float(item[...])` subscript on a
non-dict raises `TypeError`. -/
def validateItem (mealName : String) (item : Json) : Except VErr Json :=
  match item with
  | .obj ifs =>
    if itemFields.all (fun f => hasKey ifs f) then
      match coerceField ifs "calories" with
      | .error e => .error e
      | .ok i1 =>
        match coerceField i1 "protein" with
        | .error e => .error e
        | .ok i2 =>
          match coerceField i2 "carbs" with
          | .error e => .error e
          | .ok i3 =>
            match coerceField i3 "fats" with
            | .error e => .error e
            | .ok i4 =>
              match coerceField i4 "fiber" with
              | .error e => .error e
              | .ok i5 => .ok (.obj (benefitsFix i5))
    else .error (.schemaErr (missingItemFieldsMsg mealName))
  | .arr xs =>
    if itemFields.all (fun f => xs.any (fun e => match e with | .str s => s == f | _ => false)) then
      .error .otherErr
    else .error (.schemaErr (missingItemFieldsMsg mealName))
  | .str s =>
    if itemFields.all (fun f => substrB f.data s.data) then .error .otherErr
    else .error (.schemaErr (missingItemFieldsMsg mealName))
  | _ => .error .otherErr

/-- Fail-fast traversal of a list, exactly like a Python `for` loop whose
body may raise (kept structurally recursive so the kernel can evaluate
it). -/
def mapExcept (f : α → Except VErr β) : List α → Except VErr (List β)
  | [] => .ok []
  | x :: xs =>
    match f x with
    | .error e => .error e
    | .ok y =>
      match mapExcept f xs with
      | .error e => .error e
      | .ok ys => .ok (y :: ys)

/-- The `for item in meal["items"]` loop.  A list iterates its elements; a
string iterates its characters (as one-character strings); a dict iterates
its keys; anything else raises `TypeError`.  Empty iterables make the loop
body vacuous. -/
def validateItems (mealName : String) : Json → Except VErr Json
  | .arr xs =>
    match mapExcept (validateItem mealName) xs with
    | .error e => .error e
    | .ok ys => .ok (.arr ys)
  | .str s =>
    match mapExcept (fun c => validateItem mealName (.str ⟨[c]⟩)) s.data with
    | .error e => .error e
    | .ok _ => .ok (.str s)
  | .obj fs =>
    match mapExcept (fun p => validateItem mealName (.str p.1)) fs with
    | .error e => .error e
    | .ok _ => .ok (.obj fs)
  | _ => .error .otherErr

/-- Lines 404–406: default a falsy `meal_benefits` field. -/
def mealBenefitsFix (mealName : String) (fs : List (String × Json)) :
    List (String × Json) :=
  if pyFalsy (getKeyD fs "meal_benefits" .null) then
    setKey fs "meal_benefits"
      (.str ("A balanced " ++ mealName ++ " for your dietary needs."))
  else fs

/-- Lines 381–406 for a single meal: presence of `items`, `total_calories`,
`meal_benefits`; coercion of `total_calories`; item loop; default for a
falsy `meal_benefits`. -/
def validateMeal (mealName : String) (meal : Json) : Except VErr Json :=
  match meal with
  | .obj mfs =>
    if hasKey mfs "items" && hasKey mfs "total_calories" && hasKey mfs "meal_benefits" then
      match coerceField mfs "total_calories" with
      | .error e => .error e
      | .ok m1 =>
        match validateItems mealName (getKeyD m1 "items" .null) with
        | .error e => .error e
        | .ok newItems => .ok (.obj (mealBenefitsFix mealName (setKey m1 "items" newItems)))
    else .error (.schemaErr (missingMealFieldsMsg mealName))
  | .arr xs =>
    if ["items", "total_calories", "meal_benefits"].all
        (fun f => xs.any (fun e => match e with | .str s => s == f | _ => false)) then
      .error .otherErr
    else .error (.schemaErr (missingMealFieldsMsg mealName))
  | .str s =>
    if ["items", "total_calories", "meal_benefits"].all (fun f => substrB f.data s.data) then
      .error .otherErr
    else .error (.schemaErr (missingMealFieldsMsg mealName))
  | _ => .error .otherErr

/-- One iteration of the `for meal_name in required_meals` loop at the
plan level: validate `meal_plan[meal_name]` and store the updated meal. -/
def validateMealAt (fs : List (String × Json)) (name : String) :
    Except VErr (List (String × Json)) :=
  match getKey fs name with
  | some meal =>
    match validateMeal name meal with
    | .error e => .error e
    | .ok m => .ok (setKey fs name m)
  | none => .error .otherErr

/-- Lines 422–424: default a falsy `medical_compliance` field. -/
def complianceFix (fs : List (String × Json)) : List (String × Json) :=
  if pyFalsy (getKeyD fs "medical_compliance" .null) then
    setKey fs "medical_compliance"
      (.str "This plan aligns with your general dietary goals.")
  else fs

/-- Lines 408–424: `daily_summary` extraction (`.get`, so a missing key
becomes `None`), falsiness check, field presence, numeric coercion, and
the `medical_compliance` default. -/
def validateSummary (fs : List (String × Json)) :
    Except VErr (List (String × Json)) :=
  let ds := getKeyD fs "daily_summary" .null
  if pyFalsy ds then .error (.schemaErr "Missing daily_summary in AI response")
  else
    match ds with
    | .obj dfs =>
      if summaryFields.all (fun f => hasKey dfs f) then
        match coerceField dfs "total_calories" with
        | .error e => .error e
        | .ok d1 =>
          match coerceField d1 "total_protein" with
          | .error e => .error e
          | .ok d2 =>
            match coerceField d2 "total_carbs" with
            | .error e => .error e
            | .ok d3 =>
              match coerceField d3 "total_fats" with
              | .error e => .error e
              | .ok d4 =>
                match coerceField d4 "total_fiber" with
                | .error e => .error e
                | .ok d5 => .ok (setKey fs "daily_summary" (.obj (complianceFix d5)))
      else .error (.schemaErr "Missing required fields in daily_summary")
    | .arr xs =>
      if summaryFields.all
          (fun f => xs.any (fun e => match e with | .str s => s == f | _ => false)) then
        .error .otherErr
      else .error (.schemaErr "Missing required fields in daily_summary")
    | .str s =>
      if summaryFields.all (fun f => substrB f.data s.data) then .error .otherErr
      else .error (.schemaErr "Missing required fields in daily_summary")
    | _ => .error .otherErr

/-- Lines 376–427: the whole structure validation, from the parsed JSON
value to the validated plan.  A non-dict top level follows Python
membership semantics for the `all(meal in meal_plan ...)` check at
line 378, then fails on subscripting. -/
def validateMealPlan (j : Json) : Except VErr Json :=
  match j with
  | .obj fs =>
    if requiredMeals.all (fun m => hasKey fs m) then
      match validateMealAt fs "breakfast" with
      | .error e => .error e
      | .ok f1 =>
        match validateMealAt f1 "lunch" with
        | .error e => .error e
        | .ok f2 =>
          match validateMealAt f2 "dinner" with
          | .error e => .error e
          | .ok f3 =>
            match validateMealAt f3 "snacks" with
            | .error e => .error e
            | .ok f4 =>
              match validateSummary f4 with
              | .error e => .error e
              | .ok f5 => .ok (.obj f5)
    else .error (.schemaErr missingMealsMsg)
  | .arr xs =>
    if requiredMeals.all
        (fun m => xs.any (fun e => match e with | .str s => s == m | _ => false)) then
      .error .otherErr
    else .error (.schemaErr missingMealsMsg)
  | .str s =>
    if requiredMeals.all (fun m => substrB m.data s.data) then .error .otherErr
    else .error (.schemaErr missingMealsMsg)
  | _ => .error .otherErr

/-- Lines 427–440: what the caller of `generate_medical_condition_diet`
sees of validation — the validated plan on success, `None` on every
failure (all handlers return `None`; nothing partial escapes). -/
def mealPlanOrNone (j : Json) : Option Json :=
  match validateMealPlan j with
  | .ok p => some p
  | .error _ => none

/-! ## Concrete response values used in the counterexamples and witnesses -/
/-- A well-formed food item (all numbers already JSON numbers). -/
def exItem : Json :=
  .obj [("food", .str "Oats"), ("quantity", .str "50 g"), ("calories", .int 180),
    ("protein", .int 6), ("carbs", .int 30), ("fats", .int 3), ("fiber", .int 4),
    ("benefits", .str "Fiber rich")]

/-- `exItem` after validation: the five numeric fields coerced to float. -/
def exItemV : Json :=
  .obj [("food", .str "Oats"), ("quantity", .str "50 g"), ("calories", .num 180),
    ("protein", .num 6), ("carbs", .num 30), ("fats", .num 3), ("fiber", .num 4),
    ("benefits", .str "Fiber rich")]

def exMeal : Json :=
  .obj [("items", .arr [exItem]), ("total_calories", .int 180),
    ("meal_benefits", .str "Good start")]

def exMealV : Json :=
  .obj [("items", .arr [exItemV]), ("total_calories", .num 180),
    ("meal_benefits", .str "Good start")]

def exSummary : Json :=
  .obj [("total_calories", .int 875), ("total_protein", .int 53),
    ("total_carbs", .int 80), ("total_fats", .int 23), ("total_fiber", .int 17),
    ("medical_compliance", .str "Compliant")]

def exSummaryV : Json :=
  .obj [("total_calories", .num 875), ("total_protein", .num 53),
    ("total_carbs", .num 80), ("total_fats", .num 23), ("total_fiber", .num 17),
    ("medical_compliance", .str "Compliant")]

/-- A fully well-formed response. -/
def exPlan : Json :=
  .obj [("breakfast", exMeal), ("lunch", exMeal), ("dinner", exMeal),
    ("snacks", exMeal), ("daily_summary", exSummary)]

def exPlanV : Json :=
  .obj [("breakfast", exMealV), ("lunch", exMealV), ("dinner", exMealV),
    ("snacks", exMealV), ("daily_summary", exSummaryV)]

/-- `exPlan` with the `snacks` key absent. -/
def exPlanNoSnacks : Json :=
  .obj [("breakfast", exMeal), ("lunch", exMeal), ("dinner", exMeal),
    ("daily_summary", exSummary)]

/-- `exPlan` with an empty `items` list in `breakfast`. -/
def exPlanEmptyItems : Json :=
  .obj [("breakfast", .obj [("items", .arr []), ("total_calories", .int 0),
      ("meal_benefits", .str "Light")]),
    ("lunch", exMeal), ("dinner", exMeal), ("snacks", exMeal),
    ("daily_summary", exSummary)]

def exPlanEmptyItemsV : Json :=
  .obj [("breakfast", .obj [("items", .arr []), ("total_calories", .num 0),
      ("meal_benefits", .str "Light")]),
    ("lunch", exMealV), ("dinner", exMealV), ("snacks", exMealV),
    ("daily_summary", exSummaryV)]

/-- The breakfast item with `calories` equal to the text `"N/A"`. -/
def exItemNA : Json :=
  .obj [("food", .str "Oats"), ("quantity", .str "50 g"),
    ("calories", .str "N/A"), ("protein", .int 6), ("carbs", .int 30),
    ("fats", .int 3), ("fiber", .int 4), ("benefits", .str "Fiber rich")]

/-- `exPlan` with the non-numeric `calories` in the breakfast item. -/
def exPlanNA : Json :=
  .obj [("breakfast", .obj [("items", .arr [exItemNA]), ("total_calories", .int 180),
      ("meal_benefits", .str "Good start")]),
    ("lunch", exMeal), ("dinner", exMeal), ("snacks", exMeal),
    ("daily_summary", exSummary)]

/-- The fields of an item whose `benefits` is the empty string and whose
`calories` is the numeric text `"12"`, plus an extra key unknown to the
schema. -/
def exItemC6Fs : List (String × Json) :=
  [("food", .str "Tea"), ("quantity", .str "1 cup"),
   ("calories", .str "12"), ("protein", .int 0), ("carbs", .int 2),
   ("fats", .int 0), ("fiber", .int 0), ("benefits", .str ""),
   ("note", .str "extra")]

def exItemC6 : Json := .obj exItemC6Fs

/-- `exItemC6` after validation: `benefits` defaulted, numbers coerced —
including the text `"12"`, which becomes the float `12.0`. -/
def exItemC6V : Json :=
  .obj [("food", .str "Tea"), ("quantity", .str "1 cup"),
    ("calories", .num 12), ("protein", .num 0), ("carbs", .num 2),
    ("fats", .num 0), ("fiber", .num 0),
    ("benefits", .str "General nutritional benefits."),
    ("note", .str "extra")]

/-! ## JSON parsing (`json.loads`, lines 374 and 474) -/
def isJsonWs (c : Char) : Bool := c = ' ' ∨ c = '\t' ∨ c = '\n' ∨ c = '\r'

def skipJsonWs (cs : List Char) : List Char := cs.dropWhile isJsonWs

def hexVal (c : Char) : Option ℕ :=
  if '0' ≤ c ∧ c ≤ '9' then some (c.toNat - 48)
  else if 'a' ≤ c ∧ c ≤ 'f' then some (c.toNat - 87)
  else if 'A' ≤ c ∧ c ≤ 'F' then some (c.toNat - 55)
  else none

/-- The body of a JSON string after its opening quote: returns the decoded
characters and the remainder after the closing quote. -/
def parseStringRest : List Char → Option (List Char × List Char)
  | [] => none
  | '"' :: r => some ([], r)
  | '\\' :: r =>
    match r with
    | 'u' :: h1 :: h2 :: h3 :: h4 :: r2 =>
      match hexVal h1, hexVal h2, hexVal h3, hexVal h4 with
      | some a, some b, some c, some d =>
        (parseStringRest r2).map
          (fun p => (Char.ofNat (((a * 16 + b) * 16 + c) * 16 + d) :: p.1, p.2))
      | _, _, _, _ => none
    | e :: r2 =>
      let dec : Option Char :=
        if e = '"' then some '"' else if e = '\\' then some '\\'
        else if e = '/' then some '/' else if e = 'n' then some '\n'
        else if e = 't' then some '\t' else if e = 'r' then some '\r'
        else if e = 'b' then some '\x08' else if e = 'f' then some '\x0c'
        else none
      match dec with
      | some c => (parseStringRest r2).map (fun p => (c :: p.1, p.2))
      | none => none
    | [] => none
  | c :: r => (parseStringRest r).map (fun p => (c :: p.1, p.2))

/-- Fractional part and exponent of a JSON number, given its sign and
integer part. -/
def parseNumExp (m : ℚ) (cs : List Char) : Option (Json × List Char) :=
  match cs with
  | e :: r =>
    if e = 'e' ∨ e = 'E' then
      let (sgn, r1) : ℤ × List Char :=
        match r with
        | '+' :: r2 => (1, r2)
        | '-' :: r2 => (-1, r2)
        | r2 => (1, r2)
      let ds := r1.takeWhile Char.isDigit
      if ds.isEmpty then none
      else some (.num (applyExp m (sgn * (digitsToNat ds : ℤ))), r1.dropWhile Char.isDigit)
    else some (.num m, cs)
  | [] => some (.num m, [])

def parseFracExp (neg : Bool) (ip : ℕ) (cs : List Char) : Option (Json × List Char) :=
  let sg : ℤ := if neg then -1 else 1
  match cs with
  | '.' :: r =>
    let fp := r.takeWhile Char.isDigit
    if fp.isEmpty then none
    else
      parseNumExp
        (Rat.divInt (sg * ((ip * 10 ^ fp.length + digitsToNat fp : ℕ) : ℤ))
          ((10 ^ fp.length : ℕ) : ℤ))
        (r.dropWhile Char.isDigit)
  | e :: _ =>
    if e = 'e' ∨ e = 'E' then parseNumExp ((sg * (ip : ℤ) : ℤ) : ℚ) cs
    else some (.int (sg * (ip : ℤ)), cs)
  | [] => some (.int (sg * (ip : ℤ)), [])

/-- A JSON number: optional minus, `0` or a nonzero-led digit run, optional
fraction, optional exponent; `int` without fraction and exponent, `num`
(float) otherwise. -/
def parseNumber (cs : List Char) : Option (Json × List Char) :=
  let (neg, cs1) : Bool × List Char :=
    match cs with
    | '-' :: r => (true, r)
    | r => (false, r)
  match cs1 with
  | '0' :: r => parseFracExp neg 0 r
  | c :: _ =>
    if c.isDigit then
      parseFracExp neg (digitsToNat (cs1.takeWhile Char.isDigit))
        (cs1.dropWhile Char.isDigit)
    else none
  | [] => none

/-- Insert a parsed object member in front of the members parsed after it,
with Python-dict duplicate semantics: the first occurrence keeps its
position, the last occurrence keeps its value. -/
def consMember (k : String) (v : Json) (fs : List (String × Json)) :
    List (String × Json) :=
  if hasKey fs k then (k, getKeyD fs k .null) :: fs.filter (fun p => ¬ p.1 == k)
  else (k, v) :: fs

/-- Recursive-descent JSON parser, fuelled for structural recursion.  A
partially consumed array (resp. object) is re-entered by prefixing the
remainder with `[` (resp. `{`), so a single function covers the grammar;
the look-ahead guards reject trailing commas as `json.loads` does. -/
def parseJsonV : ℕ → List Char → Option (Json × List Char)
  | 0, _ => none
  | fuel + 1, cs =>
    match skipJsonWs cs with
    | 'n' :: 'u' :: 'l' :: 'l' :: r => some (.null, r)
    | 't' :: 'r' :: 'u' :: 'e' :: r => some (.bool true, r)
    | 'f' :: 'a' :: 'l' :: 's' :: 'e' :: r => some (.bool false, r)
    | '"' :: r => (parseStringRest r).map (fun p => (.str ⟨p.1⟩, p.2))
    | '[' :: r =>
      match skipJsonWs r with
      | ']' :: r2 => some (.arr [], r2)
      | r2 =>
        match parseJsonV fuel r2 with
        | some (e, r3) =>
          match skipJsonWs r3 with
          | ',' :: r4 =>
            match skipJsonWs r4 with
            | ']' :: _ => none
            | _ =>
              match parseJsonV fuel ('[' :: r4) with
              | some (.arr xs, r5) => some (.arr (e :: xs), r5)
              | _ => none
          | ']' :: r4 => some (.arr [e], r4)
          | _ => none
        | none => none
    | '\x7b' :: r =>
      match skipJsonWs r with
      | '\x7d' :: r2 => some (.obj [], r2)
      | '"' :: r2 =>
        match parseStringRest r2 with
        | some (kcs, r3) =>
          match skipJsonWs r3 with
          | ':' :: r4 =>
            match parseJsonV fuel r4 with
            | some (v, r5) =>
              match skipJsonWs r5 with
              | ',' :: r6 =>
                match skipJsonWs r6 with
                | '"' :: _ =>
                  match parseJsonV fuel ('\x7b' :: r6) with
                  | some (.obj fs, r7) => some (.obj (consMember ⟨kcs⟩ v fs), r7)
                  | _ => none
                | _ => none
              | '\x7d' :: r6 => some (.obj [(⟨kcs⟩, v)], r6)
              | _ => none
            | none => none
          | _ => none
        | none => none
      | _ => none
    | rest => parseNumber rest

/-- `json.loads`: parse one value, allowing only whitespace around it. -/
def parseJson (cs : List Char) : Option Json :=
  match parseJsonV (cs.length + 1) cs with
  | some (j, rest) => if (skipJsonWs rest).isEmpty then some j else none
  | none => none

/-! ## Code-fence stripping and the full text pipeline (lines 360–374) -/
/-- Python slice `s[:-n]`. -/
def dropLastN (n : ℕ) (cs : List Char) : List Char := cs.take (cs.length - n)

/-- Lines 363–367: `response_text[7:-3].strip()` when the text starts with
` ```json `, `response_text[3:-3].strip()` when it starts with ` ``` `,
unchanged otherwise. -/
def fenceStrip (cs : List Char) : List Char :=
  if "```json".data.isPrefixOf cs then trimPy (dropLastN 3 (cs.drop 7))
  else if "```".data.isPrefixOf cs then trimPy (dropLastN 3 (cs.drop 3))
  else cs

/-- Line 361 (`response.text.strip()`) followed by lines 363–367. -/
def cleanText (cs : List Char) : List Char := fenceStrip (trimPy cs)

/-- The raw-text-to-plan pipeline of `generate_medical_condition_diet`:
clean, `json.loads` (a parse failure is the `JSONDecodeError` handler at
line 429, returning `None`), then structure validation. -/
def fullValidateText (t : List Char) : Option Json :=
  match parseJson (cleanText t) with
  | some j => mealPlanOrNone j
  | none => none

/-- A fenced code block with language tag `tag` around `body`. -/
def wrapFence (tag body : List Char) : List Char :=
  "```".data ++ (tag ++ ('\n' :: (body ++ "\n```".data)))

/-! ## AlternativesAdvisor (`get_food_alternatives`, lines 443–484) -/
/-- Line 475: `alternatives if isinstance(alternatives, list) else []`. -/
def get_food_alternatives (j : Json) : List Json :=
  match j with
  | .arr xs => xs
  | _ => []

/-- Lines 467–484 from the response text: the same cleaning, `json.loads`
(failure → `[]`, line 480), then the list check. -/
def getFoodAlternativesText (t : List Char) : List Json :=
  match parseJson (cleanText t) with
  | some j => get_food_alternatives j
  | none => []

/-! ## CoverageReconciler (`generate_comprehensive_meal_plan`, lines 814–816) -/
/-- Line 815: `meal_plan.get('daily_summary', {}).get('total_calories', 0)`.
`none` models an `AttributeError` (a `.get` on a non-dict), caught by the
handler at line 826. -/
def getTotalValue (plan : Json) : Option Json :=
  match plan with
  | .obj fs =>
    match getKey fs "daily_summary" with
    | none => some (.int 0)
    | some (.obj dfs) => some (getKeyD dfs "total_calories" (.int 0))
    | some _ => none
  | _ => none

/-- Numeric operands of Python `/` (a bool counts as 0 or 1); `none` is the
`TypeError` for anything else. -/
def toNumber : Json → Option ℚ
  | .int n => some ((n : ℤ) : ℚ)
  | .num q => some q
  | .bool b => some (if b then 1 else 0)
  | _ => none

/-- Line 816:
`round((total / target) * 100, 1) if target > 0 else 0`.  The division is
evaluated only under the guard, so a non-numeric total with a zero target
still yields 0. -/
def reconcileCoverage (plan : Json) (target : ℚ) : Option ℚ :=
  match getTotalValue plan with
  | none => none
  | some tv =>
    if 0 < target then
      match toNumber tv with
      | some q => some (pyRound1 (qMul (qDiv q target) 100))
      | none => none
    else some 0

/-! Concrete response texts for the text-level claims. -/
/-- A minimal meal in JSON text form. -/
def mealText : String :=
  "\x7b\"items\":[],\"total_calories\":100,\"meal_benefits\":\"b\"\x7d"

/-- A complete, schema-valid meal-plan response text. -/
def exPlanText : String :=
  "\x7b\"breakfast\":" ++ mealText ++ ",\"lunch\":" ++ mealText ++
    ",\"dinner\":" ++ mealText ++ ",\"snacks\":" ++ mealText ++
    ",\"daily_summary\":\x7b\"total_calories\":400,\"total_protein\":20," ++
    "\"total_carbs\":30,\"total_fats\":10,\"total_fiber\":5," ++
    "\"medical_compliance\":\"ok\"\x7d\x7d"

def exMealTextV : Json :=
  .obj [("items", .arr []), ("total_calories", .num 100), ("meal_benefits", .str "b")]

/-- The validated plan produced from `exPlanText`. -/
def exPlanTextV : Json :=
  .obj [("breakfast", exMealTextV), ("lunch", exMealTextV), ("dinner", exMealTextV),
    ("snacks", exMealTextV),
    ("daily_summary", .obj [("total_calories", .num 400), ("total_protein", .num 20),
      ("total_carbs", .num 30), ("total_fats", .num 10), ("total_fiber", .num 5),
      ("medical_compliance", .str "ok")])]

/-! ## Spec-side profile enumerations (for the refinement claim about
`calculate_daily_calories`)

The spec's data model uses closed enumerations for gender, activity level
and diet goal; the application passes their UI labels (`"Male"`,
`"Very Active"`, `"Weight Loss"`, … — see the selectboxes at lines
1041–1072) as strings, which `calculate_daily_calories` lowercases. -/
inductive Gender where
  | male
  | female
  | other
  deriving DecidableEq

def Gender.label : Gender → String
  | .male => "Male"
  | .female => "Female"
  | .other => "Other"

inductive ActivityLevel where
  | sedentary
  | light
  | moderate
  | active
  | veryActive
  deriving DecidableEq

def ActivityLevel.label : ActivityLevel → String
  | .sedentary => "Sedentary"
  | .light => "Light"
  | .moderate => "Moderate"
  | .active => "Active"
  | .veryActive => "Very Active"

inductive DietGoal where
  | maintainWeight
  | weightLoss
  | weightGain
  | muscleGain
  deriving DecidableEq

def DietGoal.label : DietGoal → String
  | .maintainWeight => "Maintain Weight"
  | .weightLoss => "Weight Loss"
  | .weightGain => "Weight Gain"
  | .muscleGain => "Muscle Gain"

/-- Modelled from the spec: the activity-multiplier table exactly as the
spec states it (sedentary 1.2, light 1.375, moderate 1.55, active 1.725,
very_active 1.9). -/
def specMultiplier : ActivityLevel → ℚ
  | .sedentary => 1.2
  | .light => 1.375
  | .moderate => 1.55
  | .active => 1.725
  | .veryActive => 1.9

/-- Modelled from the spec: the goal-adjustment table exactly as the spec
states it (weight_loss −500, weight_gain +500, muscle_gain +300,
maintain 0). -/
def specAdjustment : DietGoal → ℚ
  | .maintainWeight => 0
  | .weightLoss => -500
  | .weightGain => 500
  | .muscleGain => 300

/-- Modelled from the spec: Mifflin-St Jeor BMR as the spec writes it
(male: `10·w + 6.25·h − 5·a + 5`; otherwise `10·w + 6.25·h − 5·a − 161`). -/
def specBMR (g : Gender) (age weight height : ℚ) : ℚ :=
  if g = .male then 10 * weight + 6.25 * height - 5 * age + 5
  else 10 * weight + 6.25 * height - 5 * age - 161

/-- Modelled from the spec: BMR × multiplier, plus the goal adjustment,
rounded, floored at 1200. -/
def specDailyCalories (age : ℚ) (g : Gender) (weight height : ℚ)
    (al : ActivityLevel) (dg : DietGoal) : ℤ :=
  max 1200 (pyRound (specBMR g age weight height * specMultiplier al + specAdjustment dg))

/-! ## Statement helpers -/
/-- A field of an item/meal object (for stating claims about single
fields). -/
def itemField (j : Json) (k : String) : Option Json :=
  match j with
  | .obj fs => getKey fs k
  | _ => none

/-- The `items` value of the named meal of a plan. -/
def planMealItems (plan : Json) (name : String) : Option Json :=
  match plan with
  | .obj fs =>
    match getKey fs name with
    | some (.obj mfs) => getKey mfs "items"
    | _ => none
  | _ => none

/-- Every key of `ks` is bound to a float (`Json.num`) in `fs`. -/
def numKeysFloat (fs : List (String × Json)) (ks : List String) : Bool :=
  ks.all (fun k => match getKey fs k with | some (.num _) => true | _ => false)

/-- The five numeric fields of an item are floats. -/
def itemFloatsOk : Json → Bool
  | .obj ifs => numKeysFloat ifs ["calories", "protein", "carbs", "fats", "fiber"]
  | _ => false

/-- Every item of a validated `items` value has float numeric fields (a
string or dict here survives validation only with no item dicts to
check). -/
def itemsFloatsOk : Json → Bool
  | .arr xs => xs.all itemFloatsOk
  | .str _ => true
  | .obj _ => true
  | _ => false

def mealFloatsOk : Json → Bool
  | .obj mfs =>
    (match getKey mfs "total_calories" with | some (.num _) => true | _ => false) &&
      (match getKey mfs "items" with | some it => itemsFloatsOk it | none => false)
  | _ => false

/-- All numeric fields a validated plan is required to have are floats:
`total_calories` of each meal, every numeric field of every item, and the
five totals of `daily_summary`. -/
def planFloatsOk : Json → Bool
  | .obj fs =>
    (requiredMeals.all fun m =>
      match getKey fs m with
      | some meal => mealFloatsOk meal
      | none => false) &&
    (match getKey fs "daily_summary" with
     | some (.obj dfs) =>
       numKeysFloat dfs
         ["total_calories", "total_protein", "total_carbs", "total_fats", "total_fiber"]
     | _ => false)
  | _ => false

/-- The example item with its `calories` field replaced by `c`. -/
def exItemCalFs (c : Json) : List (String × Json) :=
  [("food", .str "Oats"), ("quantity", .str "50 g"), ("calories", c),
   ("protein", .int 6), ("carbs", .int 30), ("fats", .int 3), ("fiber", .int 4),
   ("benefits", .str "Fiber rich")]

/-- The example meal whose single item has `calories` field `c`. -/
def exMealCal (c : Json) : Json :=
  .obj [("items", .arr [.obj (exItemCalFs c)]), ("total_calories", .int 180),
    ("meal_benefits", .str "Good start")]

def exPlanCalFs (c : Json) : List (String × Json) :=
  [("breakfast", exMealCal c), ("lunch", exMeal), ("dinner", exMeal),
   ("snacks", exMeal), ("daily_summary", exSummary)]

/-- `exPlan` with the breakfast item's `calories` field replaced by `c`. -/
def exPlanCal (c : Json) : Json := .obj (exPlanCalFs c)

/-! ## Theorems -/

theorem qAdd_eq (a b : ℚ) : qAdd a b = a + b := by
  conv_rhs => rw [← Rat.num_div_den a, ← Rat.num_div_den b]
  rw [qAdd, Rat.divInt_eq_div]
  have ha : ((a.den : ℚ)) ≠ 0 := by exact_mod_cast a.den_ne_zero
  have hb : ((b.den : ℚ)) ≠ 0 := by exact_mod_cast b.den_ne_zero
  push_cast
  field_simp

theorem qSub_eq (a b : ℚ) : qSub a b = a - b := by
  conv_rhs => rw [← Rat.num_div_den a, ← Rat.num_div_den b]
  rw [qSub, Rat.divInt_eq_div]
  have ha : ((a.den : ℚ)) ≠ 0 := by exact_mod_cast a.den_ne_zero
  have hb : ((b.den : ℚ)) ≠ 0 := by exact_mod_cast b.den_ne_zero
  push_cast
  field_simp
  ring

theorem qMul_eq (a b : ℚ) : qMul a b = a * b := by
  conv_rhs => rw [← Rat.num_div_den a, ← Rat.num_div_den b]
  rw [qMul, Rat.divInt_eq_div]
  have ha : ((a.den : ℚ)) ≠ 0 := by exact_mod_cast a.den_ne_zero
  have hb : ((b.den : ℚ)) ≠ 0 := by exact_mod_cast b.den_ne_zero
  push_cast
  field_simp

theorem qDiv_eq (a b : ℚ) (hb : b ≠ 0) : qDiv a b = a / b := by
  conv_rhs => rw [← Rat.num_div_den a, ← Rat.num_div_den b]
  rw [qDiv, Rat.divInt_eq_div]
  have ha : ((a.den : ℚ)) ≠ 0 := by exact_mod_cast a.den_ne_zero
  have hd : ((b.den : ℚ)) ≠ 0 := by exact_mod_cast b.den_ne_zero
  have hn : ((b.num : ℚ)) ≠ 0 := by exact_mod_cast Rat.num_ne_zero.mpr hb
  push_cast
  field_simp

theorem ratFloor_eq (q : ℚ) : ratFloor q = ⌊q⌋ := by
  rw [ratFloor, Rat.floor_def, Int.fdiv_eq_ediv]
  exact_mod_cast Nat.zero_le q.den

/-! ## Bridge facts for the concrete rational constants -/
theorem mkRat_37_2 : (mkRat 37 2 : ℚ) = 18.5 := by
  rw [Rat.mkRat_eq_div]; norm_num

theorem mkRat_249_10 : (mkRat 249 10 : ℚ) = 24.9 := by
  rw [Rat.mkRat_eq_div]; norm_num

theorem mkRat_299_10 : (mkRat 299 10 : ℚ) = 29.9 := by
  rw [Rat.mkRat_eq_div]; norm_num

theorem mkRat_25_4 : (mkRat 25 4 : ℚ) = 6.25 := by
  rw [Rat.mkRat_eq_div]; norm_num

/-- C10: for every BMI in the unassigned gap `24.9 ≤ bmi < 25` (including
exactly 24.9), `get_bmi_category` returns `"Obese"`: the final `else`
branch, not the overweight or normal branch, covers the gap. -/
theorem bmi_gap_is_obese (b : ℚ) (h1 : mkRat 249 10 ≤ b) (h2 : b < 25) :
    get_bmi_category b = "Obese" := by
  rw [mkRat_249_10] at h1
  unfold get_bmi_category
  rw [mkRat_37_2, mkRat_249_10, mkRat_299_10]
  split_ifs with hA hB hC
  · linarith
  · linarith [hB.2]
  · linarith [hC.1]
  · rfl

/-- Witness for C10 at exactly 24.9. -/
theorem bmi_gap_is_obese_witness : get_bmi_category (mkRat 249 10) = "Obese" :=
  bmi_gap_is_obese (mkRat 249 10) (le_refl _) (by decide)

/-- C9: `calculate_bmi` returns the sentinel 0 with the warning surfaced
whenever `weight ≤ 0` or `height ≤ 0`, and otherwise returns
`round(weight / (height/100)^2, 1)` with no warning. -/
theorem calculate_bmi_spec (w h : ℚ) :
    ((h ≤ 0 ∨ w ≤ 0) → calculate_bmi w h = (0, true)) ∧
    (0 < h → 0 < w → calculate_bmi w h = (pyRound1 (w / (h / 100) ^ 2), false)) := by
  constructor
  · intro hcond
    unfold calculate_bmi
    rw [if_pos hcond]
  · intro hh hw
    unfold calculate_bmi
    rw [if_neg (by push_neg; exact ⟨hh, hw⟩)]
    have harg : qDiv w (qMul (qDiv h 100) (qDiv h 100)) = w / (h / 100) ^ 2 := by
      rw [qDiv_eq h 100 (by norm_num), qMul_eq,
        qDiv_eq w _ (mul_ne_zero (div_ne_zero hh.ne' (by norm_num))
          (div_ne_zero hh.ne' (by norm_num))), pow_two]
    rw [harg]

/-- Witness for C9: `calculate_bmi(70, 175) = 22.9` (`229/10`) with no
warning, and `calculate_bmi(0, 175) = 0` with the warning surfaced. -/
theorem calculate_bmi_spec_witness :
    calculate_bmi 70 175 = (pyRound1 ((70 : ℚ) / ((175 : ℚ) / 100) ^ 2), false) ∧
    calculate_bmi 70 175 = (mkRat 229 10, false) ∧
    calculate_bmi 0 175 = (0, true) :=
  ⟨(calculate_bmi_spec 70 175).2 (by decide) (by decide),
   by decide,
   (calculate_bmi_spec 0 175).1 (Or.inr (by decide))⟩

/-- C4: for every plan whose `daily_summary.total_calories` is a float `q`,
coverage is `round(q / target * 100, 1)` when `target > 0`, and `0` when
the target is `0` — with no error raised in the zero case (the result is
`some 0`, not the `none` of an exception). -/
theorem reconcile_coverage_spec (plan : Json) (target q : ℚ)
    (hq : getTotalValue plan = some (.num q)) :
    (0 < target → reconcileCoverage plan target = some (pyRound1 (q / target * 100))) ∧
    reconcileCoverage plan 0 = some 0 := by
  constructor
  · intro ht
    unfold reconcileCoverage
    rw [hq]
    simp only [toNumber, if_pos ht]
    rw [qDiv_eq q target ht.ne', qMul_eq]
  · unfold reconcileCoverage
    rw [hq]
    simp

/-- Witness for C4 on the validated example plan (total 875): a 2000
target gives coverage `round(875/2000·100, 1) = 43.8`, a zero target gives
coverage 0. -/
theorem reconcile_coverage_spec_witness :
    reconcileCoverage exPlanV 2000 = some (pyRound1 ((875 : ℚ) / 2000 * 100)) ∧
    reconcileCoverage exPlanV 2000 = some (mkRat 219 5) ∧
    reconcileCoverage exPlanV 0 = some 0 :=
  ⟨(reconcile_coverage_spec exPlanV 2000 875 rfl).1 (by decide),
   by decide,
   (reconcile_coverage_spec exPlanV 0 875 rfl).2⟩

theorem activityMultiplier_label (al : ActivityLevel) :
    activityMultiplier al.label = specMultiplier al := by
  cases al
  case sedentary =>
    show (mkRat 6 5 : ℚ) = (1.2 : ℚ)
    rw [Rat.mkRat_eq_div]; norm_num
  case light =>
    show (mkRat 11 8 : ℚ) = (1.375 : ℚ)
    rw [Rat.mkRat_eq_div]; norm_num
  case moderate =>
    show (mkRat 31 20 : ℚ) = (1.55 : ℚ)
    rw [Rat.mkRat_eq_div]; norm_num
  case active =>
    show (mkRat 69 40 : ℚ) = (1.725 : ℚ)
    rw [Rat.mkRat_eq_div]; norm_num
  case veryActive =>
    show (mkRat 19 10 : ℚ) = (1.9 : ℚ)
    rw [Rat.mkRat_eq_div]; norm_num

theorem goalAdjustment_label (dg : DietGoal) :
    goalAdjustment dg.label = specAdjustment dg := by
  cases dg <;> rfl

theorem activityMultiplier_unknown (s : String)
    (h : asciiLower s ∉ ["sedentary", "light", "moderate", "active", "very active"]) :
    activityMultiplier s = 1.55 := by
  simp only [List.mem_cons, List.not_mem_nil, or_false, not_or] at h
  obtain ⟨h1, h2, h3, h4, h5⟩ := h
  unfold activityMultiplier
  have e : List.lookup (asciiLower s)
      [("sedentary", mkRat 6 5), ("light", mkRat 11 8), ("moderate", mkRat 31 20),
       ("active", mkRat 69 40), ("very active", mkRat 19 10)] = none := by
    simp [List.lookup, beq_eq_false_iff_ne.mpr h1, beq_eq_false_iff_ne.mpr h2,
      beq_eq_false_iff_ne.mpr h3, beq_eq_false_iff_ne.mpr h4, beq_eq_false_iff_ne.mpr h5]
  rw [e]
  show (mkRat 31 20 : ℚ) = (1.55 : ℚ)
  rw [Rat.mkRat_eq_div]; norm_num

theorem goalAdjustment_unknown (s : String)
    (h : asciiLower s ∉ ["weight loss", "weight gain", "muscle gain", "maintain weight"]) :
    goalAdjustment s = 0 := by
  simp only [List.mem_cons, List.not_mem_nil, or_false, not_or] at h
  obtain ⟨h1, h2, h3, h4⟩ := h
  unfold goalAdjustment
  have e : List.lookup (asciiLower s)
      [("weight loss", (-500 : ℚ)), ("weight gain", 500), ("muscle gain", 300),
       ("maintain weight", 0)] = none := by
    simp [List.lookup, beq_eq_false_iff_ne.mpr h1, beq_eq_false_iff_ne.mpr h2,
      beq_eq_false_iff_ne.mpr h3, beq_eq_false_iff_ne.mpr h4]
  rw [e]
  rfl

theorem calculate_daily_calories_floor (a w h : ℚ) (gs als dgs : String) :
    1200 ≤ calculate_daily_calories a gs w h als dgs := by
  simp only [calculate_daily_calories]
  split_ifs <;> omega

theorem calculate_daily_calories_refines (a w h : ℚ) (g : Gender)
    (al : ActivityLevel) (dg : DietGoal) :
    calculate_daily_calories a g.label w h al.label dg.label =
      specDailyCalories a g w h al dg := by
  simp only [calculate_daily_calories, specDailyCalories]
  rw [activityMultiplier_label, goalAdjustment_label]
  have hbmr :
      (if asciiLower g.label = "male" then
        qAdd (qSub (qAdd (qMul 10 w) (qMul (mkRat 25 4) h)) (qMul 5 a)) 5
      else
        qSub (qSub (qAdd (qMul 10 w) (qMul (mkRat 25 4) h)) (qMul 5 a)) 161) =
      specBMR g a w h := by
    cases g
    case male =>
      simp only [Gender.label]
      rw [if_pos (show asciiLower "Male" = "male" from rfl)]
      rw [qAdd_eq, qSub_eq, qAdd_eq, qMul_eq, qMul_eq, qMul_eq, mkRat_25_4]
      simp [specBMR]
    case female =>
      simp only [Gender.label]
      rw [if_neg (show ¬ asciiLower "Female" = "male" from by decide)]
      rw [qSub_eq, qSub_eq, qAdd_eq, qMul_eq, qMul_eq, qMul_eq, mkRat_25_4]
      simp [specBMR]
    case other =>
      simp only [Gender.label]
      rw [if_neg (show ¬ asciiLower "Other" = "male" from by decide)]
      rw [qSub_eq, qSub_eq, qAdd_eq, qMul_eq, qMul_eq, qMul_eq, mkRat_25_4]
      simp [specBMR]
  rw [hbmr, qAdd_eq, qMul_eq]
  rcases le_or_lt (pyRound (specBMR g a w h * specMultiplier al + specAdjustment dg)) 1200
    with hc | hc
  · rw [if_pos hc, max_eq_left hc]
  · rw [if_neg (not_le.mpr hc), max_eq_right hc.le]

/-- C1: for every profile, `calculate_daily_calories` computes BMR by
Mifflin-St Jeor, multiplies by the activity multiplier from the spec's
table, adds the goal adjustment from the spec's table, rounds, and floors
the result at 1200 (so it never returns less than 1200); unknown activity
levels fall back to 1.55 and unknown goals to 0. -/
theorem calculate_daily_calories_spec :
    (∀ (a w h : ℚ) (g : Gender) (al : ActivityLevel) (dg : DietGoal),
      calculate_daily_calories a g.label w h al.label dg.label =
        specDailyCalories a g w h al dg) ∧
    (∀ (a w h : ℚ) (gs als dgs : String),
      1200 ≤ calculate_daily_calories a gs w h als dgs) ∧
    (∀ s : String,
      asciiLower s ∉ ["sedentary", "light", "moderate", "active", "very active"] →
        activityMultiplier s = 1.55) ∧
    (∀ s : String,
      asciiLower s ∉ ["weight loss", "weight gain", "muscle gain", "maintain weight"] →
        goalAdjustment s = 0) :=
  ⟨calculate_daily_calories_refines, calculate_daily_calories_floor,
   activityMultiplier_unknown, goalAdjustment_unknown⟩

/-- Witness for C1 at a concrete profile (30y male, 70 kg, 175 cm, very
active, weight loss: 2633 kcal), plus the fallbacks at unknown strings. -/
theorem calculate_daily_calories_spec_witness :
    calculate_daily_calories 30 Gender.male.label 70 175 ActivityLevel.veryActive.label
        DietGoal.weightLoss.label =
      specDailyCalories 30 Gender.male 70 175 ActivityLevel.veryActive DietGoal.weightLoss ∧
    calculate_daily_calories 30 "Male" 70 175 "Very Active" "Weight Loss" = 2633 ∧
    1200 ≤ calculate_daily_calories 18 "x" 1 1 "y" "z" ∧
    activityMultiplier "Zumba" = 1.55 ∧
    goalAdjustment "bulk" = 0 :=
  ⟨calculate_daily_calories_spec.1 30 70 175 Gender.male ActivityLevel.veryActive
      DietGoal.weightLoss,
   by decide,
   calculate_daily_calories_spec.2.1 18 1 1 "x" "y" "z",
   calculate_daily_calories_spec.2.2.1 "Zumba" (by decide),
   calculate_daily_calories_spec.2.2.2 "bulk" (by decide)⟩

/-! ## Frame lemmas for dict update and field coercion -/
theorem getKey_setKey (fs : List (String × Json)) (k k2 : String) (v : Json) :
    getKey (setKey fs k v) k2 = if k2 = k then some v else getKey fs k2 := by
  induction fs with
  | nil =>
    by_cases h2 : k2 = k
    · simp [setKey, getKey, List.lookup, h2]
    · simp [setKey, getKey, List.lookup, h2, beq_eq_false_iff_ne.mpr h2]
  | cons p t ih =>
    by_cases hpk : p.1 = k
    · by_cases h2 : k2 = k
      · simp [setKey, hpk, getKey, List.lookup, h2]
      · simp [setKey, hpk, getKey, List.lookup, h2, beq_eq_false_iff_ne.mpr h2,
          hpk ▸ beq_eq_false_iff_ne.mpr h2]
    · by_cases h2 : k2 = p.1
      · have h2k : k2 ≠ k := fun e => hpk (h2 ▸ e)
        simp [setKey, hpk, getKey, List.lookup, h2, h2k]
      · simp only [setKey, if_neg hpk, getKey, List.lookup,
          beq_eq_false_iff_ne.mpr h2]
        exact ih

theorem getKey_benefitsFix_ne (fs : List (String × Json)) (k : String)
    (h : k ≠ "benefits") : getKey (benefitsFix fs) k = getKey fs k := by
  unfold benefitsFix
  split_ifs with hb
  · rw [getKey_setKey, if_neg h]
  · rfl

theorem getKey_mealBenefitsFix_ne (name : String) (fs : List (String × Json))
    (k : String) (h : k ≠ "meal_benefits") :
    getKey (mealBenefitsFix name fs) k = getKey fs k := by
  unfold mealBenefitsFix
  split_ifs with hb
  · rw [getKey_setKey, if_neg h]
  · rfl

theorem getKey_complianceFix_ne (fs : List (String × Json)) (k : String)
    (h : k ≠ "medical_compliance") :
    getKey (complianceFix fs) k = getKey fs k := by
  unfold complianceFix
  split_ifs with hb
  · rw [getKey_setKey, if_neg h]
  · rfl

theorem coerceField_ok {fs fs2 : List (String × Json)} {k : String}
    (h : coerceField fs k = .ok fs2) :
    ∃ v q, getKey fs k = some v ∧ pyFloat v = .ok q ∧ fs2 = setKey fs k (.num q) := by
  unfold coerceField at h
  cases hv : getKey fs k with
  | none => rw [hv] at h; simp at h
  | some v =>
    rw [hv] at h
    dsimp only at h
    cases hf : pyFloat v with
    | ok q =>
      rw [hf] at h
      dsimp only at h
      exact ⟨v, q, rfl, hf, (Except.ok.inj h).symm⟩
    | error e =>
      rw [hf] at h
      cases e <;> simp at h

theorem getKey_coerceField_ne {fs fs2 : List (String × Json)} {k : String}
    (k2 : String) (h : coerceField fs k = .ok fs2) (hne : k2 ≠ k) :
    getKey fs2 k2 = getKey fs k2 := by
  obtain ⟨v, q, _, _, rfl⟩ := coerceField_ok h
  rw [getKey_setKey, if_neg hne]

theorem getKey_coerceField_self {fs fs2 : List (String × Json)} {k : String}
    (h : coerceField fs k = .ok fs2) :
    ∃ v q, getKey fs k = some v ∧ pyFloat v = .ok q ∧ getKey fs2 k = some (.num q) := by
  obtain ⟨v, q, hv, hq, rfl⟩ := coerceField_ok h
  exact ⟨v, q, hv, hq, by rw [getKey_setKey, if_pos rfl]⟩

/-- What a successful item validation produces: the five numeric fields of
the input are coercible, and the output is the input with those fields
replaced by their float coercions and `benefits` possibly defaulted. -/
theorem validateItem_ok_fields {name : String} {ifs : List (String × Json)} {out : Json}
    (h : validateItem name (.obj ifs) = .ok out) :
    ∃ v1 q1 v2 q2 v3 q3 v4 q4 v5 q5,
      getKey ifs "calories" = some v1 ∧ pyFloat v1 = .ok q1 ∧
      getKey ifs "protein" = some v2 ∧ pyFloat v2 = .ok q2 ∧
      getKey ifs "carbs" = some v3 ∧ pyFloat v3 = .ok q3 ∧
      getKey ifs "fats" = some v4 ∧ pyFloat v4 = .ok q4 ∧
      getKey ifs "fiber" = some v5 ∧ pyFloat v5 = .ok q5 ∧
      out = .obj (benefitsFix
        (setKey (setKey (setKey (setKey (setKey ifs "calories" (.num q1))
          "protein" (.num q2)) "carbs" (.num q3)) "fats" (.num q4)) "fiber" (.num q5))) := by
  unfold validateItem at h
  dsimp only at h
  split_ifs at h with hall
  · cases h1 : coerceField ifs "calories" with
    | error e => rw [h1] at h; simp at h
    | ok i1 =>
      rw [h1] at h
      dsimp only at h
      cases h2 : coerceField i1 "protein" with
      | error e => rw [h2] at h; simp at h
      | ok i2 =>
        rw [h2] at h
        dsimp only at h
        cases h3 : coerceField i2 "carbs" with
        | error e => rw [h3] at h; simp at h
        | ok i3 =>
          rw [h3] at h
          dsimp only at h
          cases h4 : coerceField i3 "fats" with
          | error e => rw [h4] at h; simp at h
          | ok i4 =>
            rw [h4] at h
            dsimp only at h
            cases h5 : coerceField i4 "fiber" with
            | error e => rw [h5] at h; simp at h
            | ok i5 =>
              rw [h5] at h
              dsimp only at h
              obtain ⟨v1, q1, hv1, hq1, e1⟩ := coerceField_ok h1
              obtain ⟨v2, q2, hv2, hq2, e2⟩ := coerceField_ok h2
              obtain ⟨v3, q3, hv3, hq3, e3⟩ := coerceField_ok h3
              obtain ⟨v4, q4, hv4, hq4, e4⟩ := coerceField_ok h4
              obtain ⟨v5, q5, hv5, hq5, e5⟩ := coerceField_ok h5
              refine ⟨v1, q1, v2, q2, v3, q3, v4, q4, v5, q5, hv1, hq1, ?_, hq2, ?_, hq3,
                ?_, hq4, ?_, hq5, ?_⟩
              · rw [← hv2, e1, getKey_setKey, if_neg (by decide)]
              · rw [← hv3, e2, e1, getKey_setKey, if_neg (by decide),
                  getKey_setKey, if_neg (by decide)]
              · rw [← hv4, e3, e2, e1, getKey_setKey, if_neg (by decide),
                  getKey_setKey, if_neg (by decide), getKey_setKey, if_neg (by decide)]
              · rw [← hv5, e4, e3, e2, e1, getKey_setKey, if_neg (by decide),
                  getKey_setKey, if_neg (by decide), getKey_setKey, if_neg (by decide),
                  getKey_setKey, if_neg (by decide)]
              · rw [← Except.ok.inj h, e5, e4, e3, e2, e1]

/-- What a successful meal validation produces. -/
theorem validateMeal_ok_fields {name : String} {mfs : List (String × Json)} {out : Json}
    (h : validateMeal name (.obj mfs) = .ok out) :
    ∃ m1 newItems, coerceField mfs "total_calories" = .ok m1 ∧
      validateItems name (getKeyD m1 "items" .null) = .ok newItems ∧
      out = .obj (mealBenefitsFix name (setKey m1 "items" newItems)) := by
  unfold validateMeal at h
  dsimp only at h
  split_ifs at h with hall
  cases h1 : coerceField mfs "total_calories" with
  | error e => rw [h1] at h; simp at h
  | ok m1 =>
    rw [h1] at h
    dsimp only at h
    cases h2 : validateItems name (getKeyD m1 "items" .null) with
    | error e => rw [h2] at h; simp at h
    | ok newItems =>
      rw [h2] at h
      dsimp only at h
      exact ⟨m1, newItems, rfl, h2, (Except.ok.inj h).symm⟩

/-- What a successful `daily_summary` validation produces. -/
theorem validateSummary_ok_fields {fs out : List (String × Json)}
    (h : validateSummary fs = .ok out) :
    ∃ dfs d5,
      getKeyD fs "daily_summary" .null = .obj dfs ∧
      (∃ q1 q2 q3 q4 q5,
        d5 = setKey (setKey (setKey (setKey (setKey dfs "total_calories" (.num q1))
          "total_protein" (.num q2)) "total_carbs" (.num q3)) "total_fats" (.num q4))
          "total_fiber" (.num q5)) ∧
      out = setKey fs "daily_summary" (.obj (complianceFix d5)) := by
  unfold validateSummary at h
  dsimp only at h
  split_ifs at h with hfal
  cases hds : getKeyD fs "daily_summary" Json.null with
  | obj dfs =>
    rw [hds] at h
    dsimp only at h
    split_ifs at h with hall
    cases h1 : coerceField dfs "total_calories" with
    | error e => rw [h1] at h; simp at h
    | ok d1 =>
      rw [h1] at h
      dsimp only at h
      cases h2 : coerceField d1 "total_protein" with
      | error e => rw [h2] at h; simp at h
      | ok d2 =>
        rw [h2] at h
        dsimp only at h
        cases h3 : coerceField d2 "total_carbs" with
        | error e => rw [h3] at h; simp at h
        | ok d3 =>
          rw [h3] at h
          dsimp only at h
          cases h4 : coerceField d3 "total_fats" with
          | error e => rw [h4] at h; simp at h
          | ok d4 =>
            rw [h4] at h
            dsimp only at h
            cases h5 : coerceField d4 "total_fiber" with
            | error e => rw [h5] at h; simp at h
            | ok d5 =>
              rw [h5] at h
              dsimp only at h
              obtain ⟨v1, q1, _, _, e1⟩ := coerceField_ok h1
              obtain ⟨v2, q2, _, _, e2⟩ := coerceField_ok h2
              obtain ⟨v3, q3, _, _, e3⟩ := coerceField_ok h3
              obtain ⟨v4, q4, _, _, e4⟩ := coerceField_ok h4
              obtain ⟨v5, q5, _, _, e5⟩ := coerceField_ok h5
              refine ⟨dfs, d5, rfl, ⟨q1, q2, q3, q4, q5, ?_⟩, (Except.ok.inj h).symm⟩
              rw [e5, e4, e3, e2, e1]
  | null => rw [hds] at h; simp at h
  | bool b => rw [hds] at h; simp at h
  | int n => rw [hds] at h; simp at h
  | num q => rw [hds] at h; simp at h
  | str s => rw [hds] at h; dsimp only at h; split_ifs at h
  | arr xs => rw [hds] at h; dsimp only at h; split_ifs at h

/-- What a successful per-meal step at the plan level produces. -/
theorem validateMealAt_ok {fs out : List (String × Json)} {name : String}
    (h : validateMealAt fs name = .ok out) :
    ∃ meal m, getKey fs name = some meal ∧ validateMeal name meal = .ok m ∧
      out = setKey fs name m := by
  unfold validateMealAt at h
  cases hg : getKey fs name with
  | none => rw [hg] at h; simp at h
  | some meal =>
    rw [hg] at h
    dsimp only at h
    cases hm : validateMeal name meal with
    | error e => rw [hm] at h; simp at h
    | ok m =>
      rw [hm] at h
      dsimp only at h
      exact ⟨meal, m, rfl, hm, (Except.ok.inj h).symm⟩

theorem mapExcept_ok_all {α β : Type} {f : α → Except VErr β} {xs : List α}
    {ys : List β} (P : β → Bool) (hP : ∀ x y, f x = .ok y → P y = true)
    (h : mapExcept f xs = .ok ys) : ys.all P = true := by
  induction xs generalizing ys with
  | nil =>
    unfold mapExcept at h
    simp [← Except.ok.inj h]
  | cons x t ih =>
    unfold mapExcept at h
    cases hx : f x with
    | error e => rw [hx] at h; simp at h
    | ok y =>
      rw [hx] at h
      dsimp only at h
      cases ht : mapExcept f t with
      | error e => rw [ht] at h; simp at h
      | ok ys2 =>
        rw [ht] at h
        dsimp only at h
        rw [← Except.ok.inj h]
        simp [List.all_cons, hP x y hx, ih ht]

theorem validateItem_ok_floats {name : String} {item out : Json}
    (h : validateItem name item = .ok out) : itemFloatsOk out = true := by
  cases item with
  | obj ifs =>
    obtain ⟨v1, q1, v2, q2, v3, q3, v4, q4, v5, q5, _, _, _, _, _, _, _, _, _, _, e⟩ :=
      validateItem_ok_fields h
    rw [e]
    unfold itemFloatsOk numKeysFloat
    dsimp only
    have c1 : getKey (benefitsFix
        (setKey (setKey (setKey (setKey (setKey ifs "calories" (.num q1))
          "protein" (.num q2)) "carbs" (.num q3)) "fats" (.num q4)) "fiber" (.num q5)))
        "calories" = some (.num q1) := by
      rw [getKey_benefitsFix_ne _ _ (by decide), getKey_setKey, if_neg (by decide),
        getKey_setKey, if_neg (by decide), getKey_setKey, if_neg (by decide),
        getKey_setKey, if_neg (by decide), getKey_setKey, if_pos rfl]
    have c2 : getKey (benefitsFix
        (setKey (setKey (setKey (setKey (setKey ifs "calories" (.num q1))
          "protein" (.num q2)) "carbs" (.num q3)) "fats" (.num q4)) "fiber" (.num q5)))
        "protein" = some (.num q2) := by
      rw [getKey_benefitsFix_ne _ _ (by decide), getKey_setKey, if_neg (by decide),
        getKey_setKey, if_neg (by decide), getKey_setKey, if_neg (by decide),
        getKey_setKey, if_pos rfl]
    have c3 : getKey (benefitsFix
        (setKey (setKey (setKey (setKey (setKey ifs "calories" (.num q1))
          "protein" (.num q2)) "carbs" (.num q3)) "fats" (.num q4)) "fiber" (.num q5)))
        "carbs" = some (.num q3) := by
      rw [getKey_benefitsFix_ne _ _ (by decide), getKey_setKey, if_neg (by decide),
        getKey_setKey, if_neg (by decide), getKey_setKey, if_pos rfl]
    have c4 : getKey (benefitsFix
        (setKey (setKey (setKey (setKey (setKey ifs "calories" (.num q1))
          "protein" (.num q2)) "carbs" (.num q3)) "fats" (.num q4)) "fiber" (.num q5)))
        "fats" = some (.num q4) := by
      rw [getKey_benefitsFix_ne _ _ (by decide), getKey_setKey, if_neg (by decide),
        getKey_setKey, if_pos rfl]
    have c5 : getKey (benefitsFix
        (setKey (setKey (setKey (setKey (setKey ifs "calories" (.num q1))
          "protein" (.num q2)) "carbs" (.num q3)) "fats" (.num q4)) "fiber" (.num q5)))
        "fiber" = some (.num q5) := by
      rw [getKey_benefitsFix_ne _ _ (by decide), getKey_setKey, if_pos rfl]
    simp [List.all_cons, c1, c2, c3, c4, c5]
  | arr xs =>
    unfold validateItem at h
    dsimp only at h
    split_ifs at h
  | str s =>
    unfold validateItem at h
    dsimp only at h
    split_ifs at h
  | null => simp [validateItem] at h
  | bool b => simp [validateItem] at h
  | int n => simp [validateItem] at h
  | num q => simp [validateItem] at h

theorem validateItems_ok_floats {name : String} {it out : Json}
    (h : validateItems name it = .ok out) : itemsFloatsOk out = true := by
  cases it with
  | arr xs =>
    unfold validateItems at h
    dsimp only at h
    cases hm : mapExcept (validateItem name) xs with
    | error e => rw [hm] at h; simp at h
    | ok ys =>
      rw [hm] at h
      dsimp only at h
      rw [← Except.ok.inj h]
      unfold itemsFloatsOk
      exact mapExcept_ok_all itemFloatsOk (fun x y hx => validateItem_ok_floats hx) hm
  | str s =>
    unfold validateItems at h
    dsimp only at h
    cases hm : mapExcept (fun c => validateItem name (.str ⟨[c]⟩)) s.data with
    | error e => rw [hm] at h; simp at h
    | ok ys =>
      rw [hm] at h
      dsimp only at h
      rw [← Except.ok.inj h]
      rfl
  | obj fs =>
    unfold validateItems at h
    dsimp only at h
    cases hm : mapExcept (fun p => validateItem name (.str p.1)) fs with
    | error e => rw [hm] at h; simp at h
    | ok ys =>
      rw [hm] at h
      dsimp only at h
      rw [← Except.ok.inj h]
      rfl
  | null => simp [validateItems] at h
  | bool b => simp [validateItems] at h
  | int n => simp [validateItems] at h
  | num q => simp [validateItems] at h

theorem validateMeal_ok_floats {name : String} {meal out : Json}
    (h : validateMeal name meal = .ok out) : mealFloatsOk out = true := by
  cases meal with
  | obj mfs =>
    obtain ⟨m1, newItems, hc, hit, e⟩ := validateMeal_ok_fields h
    obtain ⟨v, q, _, _, htc⟩ := getKey_coerceField_self hc
    rw [e]
    unfold mealFloatsOk
    dsimp only
    have h1 : getKey (mealBenefitsFix name (setKey m1 "items" newItems))
        "total_calories" = some (.num q) := by
      rw [getKey_mealBenefitsFix_ne _ _ _ (by decide), getKey_setKey,
        if_neg (by decide), htc]
    have h2 : getKey (mealBenefitsFix name (setKey m1 "items" newItems))
        "items" = some newItems := by
      rw [getKey_mealBenefitsFix_ne _ _ _ (by decide), getKey_setKey, if_pos rfl]
    rw [h1, h2]
    simp [validateItems_ok_floats hit]
  | arr xs =>
    unfold validateMeal at h
    dsimp only at h
    split_ifs at h
  | str s =>
    unfold validateMeal at h
    dsimp only at h
    split_ifs at h
  | null => simp [validateMeal] at h
  | bool b => simp [validateMeal] at h
  | int n => simp [validateMeal] at h
  | num q => simp [validateMeal] at h

/-- Success of the whole validation makes every required numeric field of
the output a float. -/
theorem validateMealPlan_ok_floats {j out : Json}
    (h : validateMealPlan j = .ok out) : planFloatsOk out = true := by
  cases j with
  | obj fs =>
    unfold validateMealPlan at h
    dsimp only at h
    split_ifs at h with hall
    cases hb : validateMealAt fs "breakfast" with
    | error e => rw [hb] at h; simp at h
    | ok f1 =>
      rw [hb] at h
      dsimp only at h
      cases hl : validateMealAt f1 "lunch" with
      | error e => rw [hl] at h; simp at h
      | ok f2 =>
        rw [hl] at h
        dsimp only at h
        cases hd : validateMealAt f2 "dinner" with
        | error e => rw [hd] at h; simp at h
        | ok f3 =>
          rw [hd] at h
          dsimp only at h
          cases hs : validateMealAt f3 "snacks" with
          | error e => rw [hs] at h; simp at h
          | ok f4 =>
            rw [hs] at h
            dsimp only at h
            cases hsum : validateSummary f4 with
            | error e => rw [hsum] at h; simp at h
            | ok f5 =>
              rw [hsum] at h
              dsimp only at h
              rw [← Except.ok.inj h]
              obtain ⟨mealB, mB, _, hvB, eB⟩ := validateMealAt_ok hb
              obtain ⟨mealL, mL, _, hvL, eL⟩ := validateMealAt_ok hl
              obtain ⟨mealD, mD, _, hvD, eD⟩ := validateMealAt_ok hd
              obtain ⟨mealS, mS, _, hvS, eS⟩ := validateMealAt_ok hs
              obtain ⟨dfs, d5, _, ⟨q1, q2, q3, q4, q5, ed5⟩, ef5⟩ :=
                validateSummary_ok_fields hsum
              have gB : getKey f5 "breakfast" = some mB := by
                rw [ef5, getKey_setKey, if_neg (by decide), eS, getKey_setKey,
                  if_neg (by decide), eD, getKey_setKey, if_neg (by decide),
                  eL, getKey_setKey, if_neg (by decide), eB, getKey_setKey, if_pos rfl]
              have gL : getKey f5 "lunch" = some mL := by
                rw [ef5, getKey_setKey, if_neg (by decide), eS, getKey_setKey,
                  if_neg (by decide), eD, getKey_setKey, if_neg (by decide),
                  eL, getKey_setKey, if_pos rfl]
              have gD : getKey f5 "dinner" = some mD := by
                rw [ef5, getKey_setKey, if_neg (by decide), eS, getKey_setKey,
                  if_neg (by decide), eD, getKey_setKey, if_pos rfl]
              have gS : getKey f5 "snacks" = some mS := by
                rw [ef5, getKey_setKey, if_neg (by decide), eS, getKey_setKey, if_pos rfl]
              have gSum : getKey f5 "daily_summary" = some (.obj (complianceFix d5)) := by
                rw [ef5, getKey_setKey, if_pos rfl]
              have s1 : getKey (complianceFix d5) "total_calories" = some (.num q1) := by
                rw [getKey_complianceFix_ne _ _ (by decide), ed5, getKey_setKey,
                  if_neg (by decide), getKey_setKey, if_neg (by decide), getKey_setKey,
                  if_neg (by decide), getKey_setKey, if_neg (by decide), getKey_setKey,
                  if_pos rfl]
              have s2 : getKey (complianceFix d5) "total_protein" = some (.num q2) := by
                rw [getKey_complianceFix_ne _ _ (by decide), ed5, getKey_setKey,
                  if_neg (by decide), getKey_setKey, if_neg (by decide), getKey_setKey,
                  if_neg (by decide), getKey_setKey, if_pos rfl]
              have s3 : getKey (complianceFix d5) "total_carbs" = some (.num q3) := by
                rw [getKey_complianceFix_ne _ _ (by decide), ed5, getKey_setKey,
                  if_neg (by decide), getKey_setKey, if_neg (by decide), getKey_setKey,
                  if_pos rfl]
              have s4 : getKey (complianceFix d5) "total_fats" = some (.num q4) := by
                rw [getKey_complianceFix_ne _ _ (by decide), ed5, getKey_setKey,
                  if_neg (by decide), getKey_setKey, if_pos rfl]
              have s5 : getKey (complianceFix d5) "total_fiber" = some (.num q5) := by
                rw [getKey_complianceFix_ne _ _ (by decide), ed5, getKey_setKey, if_pos rfl]
              unfold planFloatsOk
              dsimp only
              rw [show requiredMeals = ["breakfast", "lunch", "dinner", "snacks"] from rfl]
              simp only [List.all_cons, List.all_nil]
              rw [gB, gL, gD, gS, gSum]
              simp only [Bool.and_true]
              rw [validateMeal_ok_floats hvB, validateMeal_ok_floats hvL,
                validateMeal_ok_floats hvD, validateMeal_ok_floats hvS]
              unfold numKeysFloat
              simp only [List.all_cons, List.all_nil]
              rw [s1, s2, s3, s4, s5]
              rfl
  | arr xs =>
    unfold validateMealPlan at h
    dsimp only at h
    split_ifs at h
  | str s =>
    unfold validateMealPlan at h
    dsimp only at h
    split_ifs at h
  | null => simp [validateMealPlan] at h
  | bool b => simp [validateMealPlan] at h
  | int n => simp [validateMealPlan] at h
  | num q => simp [validateMealPlan] at h

/-- A non-coercible string in the breakfast item's `calories` field fails
the whole validation with the coercion error carrying that string, and the
caller receives `None` (no partial plan). -/
theorem validateMealPlan_badCalories (s : String) (hs : parsePyFloat s = none) :
    validateMealPlan (exPlanCal (.str s)) = .error (.coercionErr s) ∧
    mealPlanOrNone (exPlanCal (.str s)) = none := by
  have h0 : pyFloat (.str s) = .error (.valueErr s) := by
    unfold pyFloat
    dsimp only
    rw [hs]
  have h1 : coerceField (exItemCalFs (.str s)) "calories" = .error (.coercionErr s) := by
    unfold coerceField
    rw [show getKey (exItemCalFs (.str s)) "calories" = some (.str s) from rfl]
    dsimp only
    rw [h0]
  have h2 : validateItem "breakfast" (.obj (exItemCalFs (.str s))) =
      .error (.coercionErr s) := by
    unfold validateItem
    dsimp only
    split_ifs with hc
    · rw [h1]
    · exact absurd rfl hc
  have h3 : validateItems "breakfast" (.arr [.obj (exItemCalFs (.str s))]) =
      .error (.coercionErr s) := by
    unfold validateItems mapExcept
    dsimp only
    rw [h2]
  have h5 : validateMeal "breakfast" (exMealCal (.str s)) = .error (.coercionErr s) := by
    show validateMeal "breakfast" (.obj [("items", .arr [.obj (exItemCalFs (.str s))]),
      ("total_calories", .int 180), ("meal_benefits", .str "Good start")]) = _
    unfold validateMeal
    dsimp only
    split_ifs with hc
    · rw [show coerceField [("items", .arr [.obj (exItemCalFs (.str s))]),
          ("total_calories", .int 180), ("meal_benefits", .str "Good start")]
          "total_calories" =
          .ok [("items", .arr [.obj (exItemCalFs (.str s))]),
            ("total_calories", .num 180), ("meal_benefits", .str "Good start")] from rfl]
      dsimp only
      rw [show getKeyD [("items", .arr [.obj (exItemCalFs (.str s))]),
          ("total_calories", .num 180), ("meal_benefits", .str "Good start")]
          "items" .null = .arr [.obj (exItemCalFs (.str s))] from rfl]
      rw [h3]
    · exact absurd rfl hc
  have h6 : validateMealAt (exPlanCalFs (.str s)) "breakfast" = .error (.coercionErr s) := by
    unfold validateMealAt
    rw [show getKey (exPlanCalFs (.str s)) "breakfast" = some (exMealCal (.str s)) from rfl]
    dsimp only
    rw [h5]
  have h7 : validateMealPlan (exPlanCal (.str s)) = .error (.coercionErr s) := by
    show validateMealPlan (.obj (exPlanCalFs (.str s))) = _
    unfold validateMealPlan
    dsimp only
    split_ifs with hc
    · rw [h6]
    · exact absurd rfl hc
  exact ⟨h7, by unfold mealPlanOrNone; rw [h7]⟩

/-- C2 (amended): a response object missing any of the four meal keys fails
with a `SchemaError`, but its message is the fixed generic
`"Missing required meal types in AI response"` — it does not name the
missing meal — and the caller receives `None` (no partial plan). -/
theorem missing_meal_key_generic_schema_error (fs : List (String × Json)) (m : String)
    (hm : m ∈ requiredMeals) (habs : hasKey fs m = false) :
    validateMealPlan (.obj fs) = .error (.schemaErr missingMealsMsg) ∧
    substrB "snacks".data missingMealsMsg.data = false ∧
    mealPlanOrNone (.obj fs) = none := by
  have hall : (requiredMeals.all fun x => hasKey fs x) = false := by
    cases hA : (requiredMeals.all fun x => hasKey fs x) with
    | false => rfl
    | true =>
      have := List.all_eq_true.mp hA m hm
      rw [habs] at this
      exact absurd this (by simp)
  have e : validateMealPlan (.obj fs) = .error (.schemaErr missingMealsMsg) := by
    unfold validateMealPlan
    dsimp only
    rw [if_neg (by rw [hall]; simp)]
  exact ⟨e, rfl, by unfold mealPlanOrNone; rw [e]⟩

/-- Counterexample to C2 as stated: on the well-formed response missing
only `snacks`, the `SchemaError` message does not contain the text
`"snacks"` (it is the generic message). -/
theorem missing_snacks_message_generic :
    validateMealPlan exPlanNoSnacks = .error (.schemaErr missingMealsMsg) ∧
    substrB "snacks".data missingMealsMsg.data = false ∧
    mealPlanOrNone exPlanNoSnacks = none :=
  ⟨rfl, rfl, rfl⟩

/-- Witness for C2 (amended) at the concrete response missing `snacks`. -/
theorem missing_meal_key_generic_schema_error_witness :
    validateMealPlan (.obj [("breakfast", exMeal), ("lunch", exMeal),
      ("dinner", exMeal), ("daily_summary", exSummary)]) =
      .error (.schemaErr missingMealsMsg) ∧
    substrB "snacks".data missingMealsMsg.data = false ∧
    mealPlanOrNone (.obj [("breakfast", exMeal), ("lunch", exMeal),
      ("dinner", exMeal), ("daily_summary", exSummary)]) = none :=
  missing_meal_key_generic_schema_error
    [("breakfast", exMeal), ("lunch", exMeal), ("dinner", exMeal),
     ("daily_summary", exSummary)] "snacks" (by decide) rfl

theorem isPrefixOf_append_self (n b : List Char) : n.isPrefixOf (n ++ b) = true := by
  induction n with
  | nil => simp [List.isPrefixOf]
  | cons c t ih => simp [List.isPrefixOf, ih]

theorem substrB_of_isPrefixOf {n hay : List Char} (h : n.isPrefixOf hay = true) :
    substrB n hay = true := by
  cases hay with
  | nil =>
    cases n with
    | nil => rfl
    | cons c t => simp [List.isPrefixOf] at h
  | cons c t => simp [substrB, h]

theorem substrB_append_right (n b a : List Char) (h : substrB n b = true) :
    substrB n (a ++ b) = true := by
  induction a with
  | nil => simpa
  | cons c t ih => simp [substrB, ih]

/-- C5 (amended): a meal object without the `items` key fails with a
`SchemaError` whose message names the meal and mentions `items` (among the
three required meal fields); but an `items` key holding an *empty*
sequence is not rejected — such a meal validates successfully, so a
validated meal may have zero items. -/
theorem items_key_required_empty_accepted :
    (∀ (name : String) (mfs : List (String × Json)), hasKey mfs "items" = false →
      validateMeal name (.obj mfs) = .error (.schemaErr (missingMealFieldsMsg name)) ∧
      substrB "items".data (missingMealFieldsMsg name).data = true ∧
      substrB name.data (missingMealFieldsMsg name).data = true) ∧
    validateMeal "breakfast" (.obj [("items", .arr []), ("total_calories", .int 5),
        ("meal_benefits", .str "light")]) =
      .ok (.obj [("items", .arr []), ("total_calories", .num 5),
        ("meal_benefits", .str "light")]) := by
  constructor
  · intro name mfs h
    refine ⟨?_, ?_, ?_⟩
    · unfold validateMeal
      dsimp only
      rw [if_neg (by rw [h]; simp)]
    · show substrB "items".data (("Missing required fields in " ++ name ++
        " meal (items, total_calories, or meal_benefits)").data) = true
      rw [String.data_append, String.data_append]
      rw [List.append_assoc]
      exact substrB_append_right _ _ _
        (substrB_append_right _ _ _ (by rfl))
    · show substrB name.data (("Missing required fields in " ++ name ++
        " meal (items, total_calories, or meal_benefits)").data) = true
      rw [String.data_append, String.data_append]
      rw [List.append_assoc]
      exact substrB_append_right _ _ _
        (substrB_of_isPrefixOf (isPrefixOf_append_self _ _))
  · rfl

/-- Counterexample to C5 as stated: a full response whose breakfast has an
empty `items` list validates successfully, and the validated breakfast
still has zero items — emptiness of `items` is not rejected. -/
theorem empty_items_accepted :
    validateMealPlan exPlanEmptyItems = .ok exPlanEmptyItemsV ∧
    planMealItems exPlanEmptyItemsV "breakfast" = some (.arr []) ∧
    mealPlanOrNone exPlanEmptyItems = some exPlanEmptyItemsV :=
  ⟨rfl, rfl, rfl⟩

/-- Witness for C5 (amended) at a meal object lacking `items`. -/
theorem items_key_required_empty_accepted_witness :
    validateMeal "breakfast" (.obj [("total_calories", .int 5),
      ("meal_benefits", .str "light")]) =
      .error (.schemaErr (missingMealFieldsMsg "breakfast")) ∧
    substrB "items".data (missingMealFieldsMsg "breakfast").data = true ∧
    substrB "breakfast".data (missingMealFieldsMsg "breakfast").data = true :=
  items_key_required_empty_accepted.1 "breakfast"
    [("total_calories", .int 5), ("meal_benefits", .str "light")] rfl

/-- C6 (amended): when a successfully validated item carried an empty
(falsy) `benefits` string, the output's `benefits` is the non-empty generic
default, `food`, `quantity` and every key outside the schema's eight are
preserved exactly, and the five numeric fields are replaced by their float
coercions (hence value-preserved whenever they were already numbers); the
same repair applies to an empty `meal_benefits` on a successfully validated
meal. -/
theorem benefits_default_repair :
    (∀ (name : String) (ifs : List (String × Json)) (out : Json),
      validateItem name (.obj ifs) = .ok out →
      getKey ifs "benefits" = some (.str "") →
      ∃ outFs, out = .obj outFs ∧
        getKey outFs "benefits" = some (.str "General nutritional benefits.") ∧
        getKey outFs "food" = getKey ifs "food" ∧
        getKey outFs "quantity" = getKey ifs "quantity" ∧
        (∀ k, k ∉ itemFields → getKey outFs k = getKey ifs k) ∧
        (∀ k, k ∈ (["calories", "protein", "carbs", "fats", "fiber"] : List String) →
          ∃ v q, getKey ifs k = some v ∧ pyFloat v = .ok q ∧
            getKey outFs k = some (.num q))) ∧
    (∀ (name : String) (mfs : List (String × Json)) (out : Json),
      validateMeal name (.obj mfs) = .ok out →
      getKey mfs "meal_benefits" = some (.str "") →
      ∃ outFs, out = .obj outFs ∧
        getKey outFs "meal_benefits" =
          some (.str ("A balanced " ++ name ++ " for your dietary needs."))) := by
  constructor
  · intro name ifs out h hb
    obtain ⟨v1, q1, v2, q2, v3, q3, v4, q4, v5, q5, hv1, hq1, hv2, hq2, hv3, hq3,
      hv4, hq4, hv5, hq5, e⟩ := validateItem_ok_fields h
    set C := setKey (setKey (setKey (setKey (setKey ifs "calories" (.num q1))
      "protein" (.num q2)) "carbs" (.num q3)) "fats" (.num q4)) "fiber" (.num q5) with hC
    have hCb : getKey C "benefits" = some (.str "") := by
      rw [hC, getKey_setKey, if_neg (by decide), getKey_setKey, if_neg (by decide),
        getKey_setKey, if_neg (by decide), getKey_setKey, if_neg (by decide),
        getKey_setKey, if_neg (by decide), hb]
    have hfix : benefitsFix C = setKey C "benefits" (.str "General nutritional benefits.") := by
      unfold benefitsFix
      rw [if_pos (show pyFalsy (getKeyD C "benefits" .null) = true from by
        unfold getKeyD
        rw [hCb]
        rfl)]
    refine ⟨setKey C "benefits" (.str "General nutritional benefits."),
      by rw [e, hfix], ?_, ?_, ?_, ?_, ?_⟩
    · rw [getKey_setKey, if_pos rfl]
    · rw [getKey_setKey, if_neg (by decide), hC, getKey_setKey, if_neg (by decide),
        getKey_setKey, if_neg (by decide), getKey_setKey, if_neg (by decide),
        getKey_setKey, if_neg (by decide), getKey_setKey, if_neg (by decide)]
    · rw [getKey_setKey, if_neg (by decide), hC, getKey_setKey, if_neg (by decide),
        getKey_setKey, if_neg (by decide), getKey_setKey, if_neg (by decide),
        getKey_setKey, if_neg (by decide), getKey_setKey, if_neg (by decide)]
    · intro k hk
      simp only [itemFields, List.mem_cons, List.not_mem_nil, or_false, not_or] at hk
      obtain ⟨hkf, hkq, hkc, hkp, hkcb, hkft, hkfb, hkb⟩ := hk
      rw [getKey_setKey, if_neg hkb, hC, getKey_setKey, if_neg hkfb,
        getKey_setKey, if_neg hkft, getKey_setKey, if_neg hkcb,
        getKey_setKey, if_neg hkp, getKey_setKey, if_neg hkc]
    · intro k hk
      simp only [List.mem_cons, List.not_mem_nil, or_false] at hk
      rcases hk with rfl | rfl | rfl | rfl | rfl
      · exact ⟨v1, q1, hv1, hq1, by
          rw [getKey_setKey, if_neg (by decide), hC, getKey_setKey, if_neg (by decide),
            getKey_setKey, if_neg (by decide), getKey_setKey, if_neg (by decide),
            getKey_setKey, if_neg (by decide), getKey_setKey, if_pos rfl]⟩
      · exact ⟨v2, q2, hv2, hq2, by
          rw [getKey_setKey, if_neg (by decide), hC, getKey_setKey, if_neg (by decide),
            getKey_setKey, if_neg (by decide), getKey_setKey, if_neg (by decide),
            getKey_setKey, if_pos rfl]⟩
      · exact ⟨v3, q3, hv3, hq3, by
          rw [getKey_setKey, if_neg (by decide), hC, getKey_setKey, if_neg (by decide),
            getKey_setKey, if_neg (by decide), getKey_setKey, if_pos rfl]⟩
      · exact ⟨v4, q4, hv4, hq4, by
          rw [getKey_setKey, if_neg (by decide), hC, getKey_setKey, if_neg (by decide),
            getKey_setKey, if_pos rfl]⟩
      · exact ⟨v5, q5, hv5, hq5, by
          rw [getKey_setKey, if_neg (by decide), hC, getKey_setKey, if_pos rfl]⟩
  · intro name mfs out h hb
    obtain ⟨m1, newItems, hc, hit, e⟩ := validateMeal_ok_fields h
    have hm1 : getKey m1 "meal_benefits" = some (.str "") := by
      rw [getKey_coerceField_ne _ hc (by decide), hb]
    have hM : getKey (setKey m1 "items" newItems) "meal_benefits" = some (.str "") := by
      rw [getKey_setKey, if_neg (by decide), hm1]
    have hfix : mealBenefitsFix name (setKey m1 "items" newItems) =
        setKey (setKey m1 "items" newItems) "meal_benefits"
          (.str ("A balanced " ++ name ++ " for your dietary needs.")) := by
      unfold mealBenefitsFix
      rw [if_pos (show pyFalsy (getKeyD (setKey m1 "items" newItems)
          "meal_benefits" .null) = true from by
        unfold getKeyD
        rw [hM]
        rfl)]
    exact ⟨_, by rw [e, hfix], by rw [getKey_setKey, if_pos rfl]⟩

/-- Counterexample to C6 as stated: an item with empty `benefits` whose
`calories` is the numeric text `"12"` validates, but the validated
`calories` is the float `12.0`, not the original string — not every other
field is preserved unchanged. -/
theorem coercion_changes_numeric_text_field :
    itemField exItemC6 "benefits" = some (.str "") ∧
    validateItem "breakfast" exItemC6 = .ok exItemC6V ∧
    itemField exItemC6 "calories" = some (.str "12") ∧
    itemField exItemC6V "calories" = some (.num 12) ∧
    itemField exItemC6V "calories" ≠ itemField exItemC6 "calories" :=
  ⟨rfl, rfl, rfl, rfl, by
    intro hcontra
    rw [show itemField exItemC6V "calories" = some (.num 12) from rfl,
      show itemField exItemC6 "calories" = some (.str "12") from rfl] at hcontra
    simp at hcontra⟩

/-- Witness for C6 (amended) at the concrete item with empty `benefits`
and at a concrete meal with empty `meal_benefits`. -/
theorem benefits_default_repair_witness :
    (∃ outFs, exItemC6V = .obj outFs ∧
      getKey outFs "benefits" = some (.str "General nutritional benefits.") ∧
      getKey outFs "food" = getKey exItemC6Fs "food" ∧
      getKey outFs "quantity" = getKey exItemC6Fs "quantity" ∧
      (∀ k, k ∉ itemFields → getKey outFs k = getKey exItemC6Fs k) ∧
      (∀ k, k ∈ (["calories", "protein", "carbs", "fats", "fiber"] : List String) →
        ∃ v q, getKey exItemC6Fs k = some v ∧ pyFloat v = .ok q ∧
          getKey outFs k = some (.num q))) ∧
    (∃ outFs, Json.obj [("items", .arr []), ("total_calories", .num 5),
        ("meal_benefits", .str "A balanced lunch for your dietary needs.")] = .obj outFs ∧
      getKey outFs "meal_benefits" =
        some (.str ("A balanced " ++ "lunch" ++ " for your dietary needs."))) :=
  ⟨benefits_default_repair.1 "breakfast" exItemC6Fs exItemC6V rfl rfl,
   benefits_default_repair.2 "lunch"
     [("items", .arr []), ("total_calories", .int 5), ("meal_benefits", .str "")]
     (.obj [("items", .arr []), ("total_calories", .num 5),
       ("meal_benefits", .str "A balanced lunch for your dietary needs.")]) rfl rfl⟩

/-- C3: a non-coercible text in a numeric field (any string `float()`
rejects, e.g. `"N/A"`) makes validation fail with the coercion error
carrying that string — fatal for the whole plan, the caller gets `None`;
and every successfully validated plan has all its required numeric fields
converted to floats. -/
theorem type_coercion_spec :
    (∀ s : String, parsePyFloat s = none →
      validateMealPlan (exPlanCal (.str s)) = .error (.coercionErr s) ∧
      mealPlanOrNone (exPlanCal (.str s)) = none) ∧
    (∀ j out : Json, validateMealPlan j = .ok out → planFloatsOk out = true) :=
  ⟨validateMealPlan_badCalories, fun _ _ h => validateMealPlan_ok_floats h⟩

/-- Witness for C3: the literal `"N/A"` calories fail with the coercion
error; the all-coercible example plan validates with every numeric field a
float. -/
theorem type_coercion_spec_witness :
    validateMealPlan (exPlanCal (.str "N/A")) = .error (.coercionErr "N/A") ∧
    mealPlanOrNone (exPlanCal (.str "N/A")) = none ∧
    planFloatsOk exPlanV = true :=
  ⟨(type_coercion_spec.1 "N/A" rfl).1, (type_coercion_spec.1 "N/A" rfl).2,
   type_coercion_spec.2 exPlan exPlanV rfl⟩

/-! ## Text-layer lemmas for the fence-stripping claim -/
theorem trimLeftPy_cons_not (c : Char) (cs : List Char) (h : isPyWs c = false) :
    trimLeftPy (c :: cs) = c :: cs := by
  unfold trimLeftPy
  rw [List.dropWhile_cons, h]
  rfl

theorem head_not_ws_of_trimLeftPy (c : Char) (cs : List Char)
    (h : trimLeftPy (c :: cs) = c :: cs) : isPyWs c = false := by
  cases hc : isPyWs c with
  | false => rfl
  | true =>
    unfold trimLeftPy at h
    rw [List.dropWhile_cons, hc] at h
    have hlen := congrArg List.length h
    have := (List.dropWhile_sublist (l := cs) isPyWs).length_le
    simp at hlen
    omega

theorem trimPy_core (J : List Char) (hne : J ≠ [])
    (h1 : trimLeftPy J = J) (h2 : trimLeftPy J.reverse = J.reverse) :
    trimPy J = J ∧ trimPy (J ++ ['\n']) = J ∧ trimPy ('\n' :: (J ++ ['\n'])) = J := by
  obtain ⟨c, t, rfl⟩ : ∃ c t, J = c :: t := by
    cases J with
    | nil => exact absurd rfl hne
    | cons c t => exact ⟨c, t, rfl⟩
  have hc : isPyWs c = false := head_not_ws_of_trimLeftPy c t h1
  have base : trimPy (c :: t) = c :: t := by
    unfold trimPy
    rw [h1]
    rw [show (c :: t).reverse.dropWhile isPyWs = trimLeftPy (c :: t).reverse from rfl, h2,
      List.reverse_reverse]
  have mid : trimPy ((c :: t) ++ ['\n']) = c :: t := by
    unfold trimPy
    rw [show ((c :: t) ++ ['\n'] : List Char) = c :: (t ++ ['\n']) from by simp,
      trimLeftPy_cons_not _ _ hc,
      show (c :: (t ++ ['\n'])).reverse = '\n' :: (c :: t).reverse from by simp]
    rw [List.dropWhile_cons]
    rw [show isPyWs '\x0a' = true from rfl, if_pos rfl]
    rw [show (c :: t).reverse.dropWhile isPyWs = trimLeftPy (c :: t).reverse from rfl, h2,
      List.reverse_reverse]
  refine ⟨base, mid, ?_⟩
  unfold trimPy
  rw [show trimLeftPy ('\n' :: ((c :: t) ++ ['\n'])) =
      trimLeftPy ((c :: t) ++ ['\n']) from by
    unfold trimLeftPy
    rw [List.dropWhile_cons, show isPyWs '\x0a' = true from rfl, if_pos rfl]]
  have := mid
  unfold trimPy at this
  exact this

theorem take_length_append (a b : List Char) : (a ++ b).take a.length = a := by
  induction a with
  | nil => rfl
  | cons c t ih => simp [List.take, ih]

theorem dropLastN_append (a b : List Char) : dropLastN b.length (a ++ b) = a := by
  unfold dropLastN
  rw [List.length_append, show a.length + b.length - b.length = a.length from by omega]
  exact take_length_append a b

theorem isPrefixOf_trans {a b c : List Char} (h1 : a.isPrefixOf b = true)
    (h2 : b.isPrefixOf c = true) : a.isPrefixOf c = true := by
  rw [List.isPrefixOf_iff_prefix] at h1 h2 ⊢
  exact h1.trans h2

/-- C7 (amended): the validator accepts unwrapped raw JSON, a leading
fenced block tagged exactly `json`, and a bare untagged fence — each
cleaning to the same text, so the full pipeline gives the same result; but
a fence with any other language tag (shown for `python`) is mis-stripped:
the tag stays in the cleaned text, which therefore no longer parses as the
original JSON. -/
theorem fence_stripping_spec (J : List Char) (hne : J ≠ [])
    (hh : isPyWs (J.headD ' ') = false) (hl : isPyWs (J.getLastD ' ') = false)
    (hp : "```".data.isPrefixOf J = false) :
    cleanText J = J ∧
    cleanText (wrapFence "json".data J) = J ∧
    cleanText (wrapFence [] J) = J ∧
    fullValidateText (wrapFence "json".data J) = fullValidateText J ∧
    fullValidateText (wrapFence [] J) = fullValidateText J ∧
    cleanText (wrapFence "python".data J) = "python".data ++ '\n' :: J := by
  obtain ⟨c, t, rfl⟩ : ∃ c t, J = c :: t := by
    cases J with
    | nil => exact absurd rfl hne
    | cons c t => exact ⟨c, t, rfl⟩
  have hc : isPyWs c = false := hh
  have h1 : trimLeftPy (c :: t) = c :: t := trimLeftPy_cons_not c t hc
  obtain ⟨d, r, hrev⟩ : ∃ d r, (c :: t).reverse = d :: r := by
    cases hrv : (c :: t).reverse with
    | nil => simp at hrv
    | cons d r => exact ⟨d, r, rfl⟩
  have hdl : (c :: t).getLastD ' ' = d := by
    rw [List.getLastD_eq_getLast?, ← List.head?_reverse, hrev]
    rfl
  have hd : isPyWs d = false := hdl ▸ hl
  have h2 : trimLeftPy (c :: t).reverse = (c :: t).reverse := by
    rw [hrev]
    exact trimLeftPy_cons_not d r hd
  obtain ⟨htrim, htrimR, htrimLR⟩ := trimPy_core (c :: t) hne h1 h2
  -- the unwrapped text is left unchanged
  have hjsonJ : "```json".data.isPrefixOf (c :: t) = false := by
    cases hj : "```json".data.isPrefixOf (c :: t) with
    | false => rfl
    | true =>
      rw [isPrefixOf_trans (show ("```".data : List Char).isPrefixOf "```json".data = true
        from rfl) hj] at hp
      exact absurd hp (by simp)
  have hcleanJ : cleanText (c :: t) = c :: t := by
    unfold cleanText
    rw [htrim]
    unfold fenceStrip
    rw [hjsonJ, hp]
    simp
  have trimW : ∀ tag : List Char,
      trimPy (wrapFence tag (c :: t)) = wrapFence tag (c :: t) := by
    intro tag
    have hA : trimLeftPy (wrapFence tag (c :: t)) = wrapFence tag (c :: t) := by
      rw [show wrapFence tag (c :: t) =
        '`' :: (('`' :: '`' :: []) ++ (tag ++ '\n' :: ((c :: t) ++ "\n```".data))) from rfl]
      exact trimLeftPy_cons_not _ _ rfl
    have hsplit : wrapFence tag (c :: t) =
        ("```".data ++ tag ++ '\n' :: ((c :: t) ++ "\n``".data)) ++ ['`'] := by
      unfold wrapFence
      simp only [List.cons_append, List.append_assoc]
      rfl
    have hB : trimLeftPy (wrapFence tag (c :: t)).reverse =
        (wrapFence tag (c :: t)).reverse := by
      rw [hsplit, List.reverse_append]
      exact trimLeftPy_cons_not _ _ rfl
    exact (trimPy_core _ (by rw [hsplit]; simp) hA hB).1
  have hcleanJson : cleanText (wrapFence "json".data (c :: t)) = c :: t := by
    unfold cleanText
    rw [trimW "json".data]
    unfold fenceStrip
    rw [if_pos (show ("```json".data : List Char).isPrefixOf
        (wrapFence "json".data (c :: t)) = true from by
      rw [show wrapFence "json".data (c :: t) =
          "```json".data ++ ('\n' :: ((c :: t) ++ "\n```".data)) from by
        unfold wrapFence
        rw [← List.append_assoc]
        rfl]
      exact isPrefixOf_append_self _ _)]
    rw [show List.drop 7 (wrapFence "json".data (c :: t)) =
      '\n' :: ((c :: t) ++ "\n```".data) from rfl]
    rw [show ('\n' :: ((c :: t) ++ "\n```".data) : List Char) =
        ('\n' :: ((c :: t) ++ ['\n'])) ++ "```".data from by
      simp only [List.cons_append, List.append_assoc]
      rfl]
    rw [show (3 : ℕ) = ("```".data : List Char).length from rfl, dropLastN_append]
    exact htrimLR
  have hcleanBare : cleanText (wrapFence [] (c :: t)) = c :: t := by
    unfold cleanText
    rw [trimW []]
    unfold fenceStrip
    rw [if_neg (show ¬ ("```json".data : List Char).isPrefixOf
        (wrapFence [] (c :: t)) = true from by
      rw [show ("```json".data : List Char).isPrefixOf (wrapFence [] (c :: t)) = false
        from rfl]
      simp)]
    rw [if_pos (show ("```".data : List Char).isPrefixOf (wrapFence [] (c :: t)) = true
      from rfl)]
    rw [show List.drop 3 (wrapFence [] (c :: t)) =
      '\n' :: ((c :: t) ++ "\n```".data) from rfl]
    rw [show ('\n' :: ((c :: t) ++ "\n```".data) : List Char) =
        ('\n' :: ((c :: t) ++ ['\n'])) ++ "```".data from by
      simp only [List.cons_append, List.append_assoc]
      rfl]
    rw [show (3 : ℕ) = ("```".data : List Char).length from rfl, dropLastN_append]
    exact htrimLR
  have hcleanPy : cleanText (wrapFence "python".data (c :: t)) =
      "python".data ++ '\n' :: (c :: t) := by
    unfold cleanText
    rw [trimW "python".data]
    unfold fenceStrip
    rw [if_neg (show ¬ ("```json".data : List Char).isPrefixOf
        (wrapFence "python".data (c :: t)) = true from by
      rw [show ("```json".data : List Char).isPrefixOf
        (wrapFence "python".data (c :: t)) = false from rfl]
      simp)]
    rw [if_pos (show ("```".data : List Char).isPrefixOf
      (wrapFence "python".data (c :: t)) = true from rfl)]
    rw [show List.drop 3 (wrapFence "python".data (c :: t)) =
      "python".data ++ '\n' :: ((c :: t) ++ "\n```".data) from rfl]
    rw [show ("python".data ++ '\n' :: ((c :: t) ++ "\n```".data) : List Char) =
        (("python".data ++ '\n' :: (c :: t)) ++ ['\n']) ++ "```".data from by
      simp only [List.cons_append, List.append_assoc]
      rfl]
    rw [show (3 : ℕ) = ("```".data : List Char).length from rfl, dropLastN_append]
    have hX1 : trimLeftPy ("python".data ++ '\n' :: (c :: t)) =
        "python".data ++ '\n' :: (c :: t) := by
      rw [show ("python".data ++ '\n' :: (c :: t) : List Char) =
        'p' :: ("ython".data ++ '\n' :: (c :: t)) from rfl]
      exact trimLeftPy_cons_not _ _ rfl
    have hX2 : trimLeftPy ("python".data ++ '\n' :: (c :: t)).reverse =
        ("python".data ++ '\n' :: (c :: t)).reverse := by
      rw [show ("python".data ++ '\n' :: (c :: t) : List Char).reverse =
          d :: ((r ++ ['\n']) ++ "python".data.reverse) from by
        rw [List.reverse_append, List.reverse_cons, hrev]
        simp only [List.cons_append, List.append_assoc]]
      exact trimLeftPy_cons_not _ _ hd
    exact (trimPy_core _ (by
      rw [show ("python".data ++ '\n' :: (c :: t) : List Char) =
        'p' :: ("ython".data ++ '\n' :: (c :: t)) from rfl]
      simp) hX1 hX2).2.1
  refine ⟨hcleanJ, hcleanJson, hcleanBare, ?_, ?_, hcleanPy⟩
  · unfold fullValidateText
    rw [hcleanJson, hcleanJ]
  · unfold fullValidateText
    rw [hcleanBare, hcleanJ]

/-- Counterexample to C7 as stated: a complete valid plan text validates
unwrapped (and `json`-wrapped), but wrapped in a `python`-tagged fence the
pipeline returns `None` instead of the same plan — not every language tag
is accepted. -/
theorem fence_tag_counterexample :
    fullValidateText exPlanText.data = some exPlanTextV ∧
    fullValidateText (wrapFence "json".data exPlanText.data) = some exPlanTextV ∧
    fullValidateText (wrapFence "python".data exPlanText.data) = none :=
  ⟨rfl, rfl, rfl⟩

/-- Witness for C7 (amended) at the concrete two-character text `{}`. -/
theorem fence_stripping_spec_witness :
    cleanText "\x7b\x7d".data = "\x7b\x7d".data ∧
    cleanText (wrapFence "json".data "\x7b\x7d".data) = "\x7b\x7d".data ∧
    cleanText (wrapFence [] "\x7b\x7d".data) = "\x7b\x7d".data ∧
    fullValidateText (wrapFence "json".data "\x7b\x7d".data) =
      fullValidateText "\x7b\x7d".data ∧
    fullValidateText (wrapFence [] "\x7b\x7d".data) = fullValidateText "\x7b\x7d".data ∧
    cleanText (wrapFence "python".data "\x7b\x7d".data) =
      "python".data ++ '\n' :: "\x7b\x7d".data :=
  fence_stripping_spec "\x7b\x7d".data (by decide) rfl rfl rfl

/-- C8 (amended): `get_food_alternatives` returns the parsed JSON array
verbatim — whatever its length or element types — and returns the empty
sequence as a normal result for any non-array parse (in particular a JSON
object) and for any parse failure. -/
theorem alternatives_list_spec :
    (∀ (t : List Char) (xs : List Json), parseJson (cleanText t) = some (.arr xs) →
      getFoodAlternativesText t = xs) ∧
    (∀ (t : List Char) (fs : List (String × Json)),
      parseJson (cleanText t) = some (.obj fs) → getFoodAlternativesText t = []) ∧
    (∀ t : List Char, parseJson (cleanText t) = none → getFoodAlternativesText t = []) := by
  refine ⟨?_, ?_, ?_⟩
  · intro t xs h
    unfold getFoodAlternativesText
    rw [h]
    rfl
  · intro t fs h
    unfold getFoodAlternativesText
    rw [h]
    rfl
  · intro t h
    unfold getFoodAlternativesText
    rw [h]

/-- Counterexample to C8 as stated: a response that is a JSON array of four
strings is returned whole — the advertised length bound of 3 is not
enforced. -/
theorem alternatives_length_counterexample :
    (getFoodAlternativesText "[\"a\",\"b\",\"c\",\"d\"]".data).length = 4 ∧
    ¬ (getFoodAlternativesText "[\"a\",\"b\",\"c\",\"d\"]".data).length ≤ 3 :=
  ⟨rfl, by decide⟩

/-- Witness for C8 (amended): a three-string array is returned verbatim, a
JSON object yields `[]`, and unparsable text yields `[]`. -/
theorem alternatives_list_spec_witness :
    getFoodAlternativesText "[\"a\",\"b\",\"c\"]".data = [.str "a", .str "b", .str "c"] ∧
    getFoodAlternativesText "\x7b\"a\":1\x7d".data = [] ∧
    getFoodAlternativesText "not json".data = [] :=
  ⟨alternatives_list_spec.1 _ _ rfl, alternatives_list_spec.2.1 _ [("a", .int 1)] rfl,
   alternatives_list_spec.2.2 _ rfl⟩
